import Mathlib

set_option linter.unusedVariables false
set_option linter.unusedSectionVars false

/-
Verification development for the UTM delivery-drone core: a shallow
embedding of the repository's geofencing, 4D A* pathfinding, conflict
detection/resolution and mission-orchestration modules, with theorems
settling the frozen claims about them.

Modelling conventions:
  * Python floats are modelled as elements of a linear ordered field with
    a floor function (`ℚ` gives fully executable instances; `ℝ` carries
    the instance whose geodesy primitives are the genuine transcendental
    formulas of the source).
  * The transcendental geodesy functions (haversine distance, bearing,
    square root, cosine) are collected in a `GeoPrims` parameter; the
    structural theorems hold for every instantiation, and `realPrims`
    below is the verbatim translation of the source formulas over `ℝ`.
  * Python exceptions (the missing `Position` import, list indexing on an
    empty list, missing dict keys) are modelled with `Except PyErr`.
  * `float('inf')` cost multipliers are modelled as `none : Option α`.
  * Python `round(x, n)` is round-half-to-even on the exact value;
    `hash((round(lat,4), round(lon,4), round(alt,0)))` is modelled by the
    rounded integer triple itself (hash collisions between distinct
    triples are idealised away).
-/

namespace UTM

section Defs

variable {α : Type} [LinearOrderedField α] [FloorRing α]

/-! ## config.py : operational parameters -/

def DRONE_MAX_SPEED : α := 15
def DRONE_MIN_SPEED : α := 3
def DRONE_CRUISE_SPEED : α := 10
def DRONE_MAX_ALTITUDE : α := 120
def DRONE_BATTERY_CAPACITY : α := 3600
def DRONE_POWER_CONSUMPTION : α := 200
def GRID_RESOLUTION : α := 100
def ALTITUDE_LAYERS : List α := [30, 50, 70, 90, 110]
def HORIZONTAL_SEPARATION : α := 30
def VERTICAL_SEPARATION : α := 15
def TIME_RESOLUTION : α := 5
def MAX_ITERATIONS : Nat := 200000

def DIRECTION_ALTITUDE_MAP : List (String × List α) :=
  [("NORTH", [50, 90]), ("SOUTH", [50, 90]),
   ("EAST", [30, 70, 110]), ("WEST", [30, 70, 110])]

/-! ## models.py : data model -/

structure Position (α : Type) where
  latitude : α
  longitude : α
  altitude : α
deriving DecidableEq

structure Position4D (α : Type) where
  latitude : α
  longitude : α
  altitude : α
  timestamp : α
deriving DecidableEq

structure Waypoint (α : Type) where
  position : Position α
  eta : α
  speed : α
  heading : α
deriving DecidableEq

structure Trajectory (α : Type) where
  waypoints : List (Waypoint α)
  total_distance : α
  total_time : α
  estimated_battery_usage : α
deriving DecidableEq

inductive DroneStatus where
  | idle | assigned | en_route_pickup | at_pickup | en_route_delivery
  | at_delivery | returning | emergency | maintenance
deriving DecidableEq

structure Telemetry (α : Type) where
  drone_id : String
  position : Position α
  velocity : α × α × α
  battery_level : α
  status : DroneStatus
  timestamp : α
deriving DecidableEq

structure Mission (α : Type) where
  mission_id : String
  drone_id : Option String
  pickup_location : Position α
  delivery_location : Position α
  created_at : α
  assigned_at : Option α
  completed_at : Option α
  status : DroneStatus
  trajectory : Option (Trajectory α)
deriving DecidableEq

structure DeliveryRequest (α : Type) where
  pickup : Position α
  delivery : Position α
deriving DecidableEq

structure ConflictAlert (α : Type) where
  conflict_id : String
  drone_1_id : String
  drone_2_id : String
  conflict_position : Position α
  conflict_time : α
  severity : String
  resolution_action : Option String
deriving DecidableEq

/-- Python exceptions that the modelled code can raise. -/
inductive PyErr where
  | nameError (name : String)
  | indexError
  | keyError
deriving DecidableEq

/-! ## config.py : geofence zones -/

structure GeofenceZone (α : Type) where
  name : String
  polygon : List (α × α)
  /-- `none` models the `float('inf')` multiplier of a prohibited zone. -/
  cost_multiplier : Option α

def NO_FLY_ZONES : List (GeofenceZone α) :=
  [⟨"Airport Restricted Airspace",
    [(37.6213, -122.3790), (37.6213, -122.3590),
     (37.6013, -122.3590), (37.6013, -122.3790)], none⟩,
   ⟨"Military Base",
    [(37.7850, -122.4100), (37.7850, -122.3900),
     (37.7650, -122.3900), (37.7650, -122.4100)], none⟩]

def SENSITIVE_AREAS : List (GeofenceZone α) :=
  [⟨"Elementary School Zone",
    [(37.7700, -122.4350), (37.7700, -122.4300),
     (37.7650, -122.4300), (37.7650, -122.4350)], some 5⟩,
   ⟨"Hospital Complex",
    [(37.7550, -122.4050), (37.7550, -122.4000),
     (37.7500, -122.4000), (37.7500, -122.4050)], some 4⟩,
   ⟨"Residential High Density",
    [(37.7400, -122.4200), (37.7400, -122.4100),
     (37.7300, -122.4100), (37.7300, -122.4200)], some 2⟩]

structure OperationalArea (α : Type) where
  min_lat : α
  max_lat : α
  min_lon : α
  max_lon : α

def OPERATIONAL_AREA : OperationalArea α := ⟨37.60, 37.80, -122.45, -122.35⟩

/-! ## geofencing.py -/

/-- One iteration of the ray-casting loop of `point_in_polygon` for the edge
from `p1` to `p2` (the source computes `xinters` only when
`p1_lon ≠ p2_lon`, which is forced by the surrounding guard; division by
zero is unreachable). -/
def pipEdge (lat lon : α) (p1 p2 : α × α) (inside : Bool) : Bool :=
  if lon > min p1.2 p2.2 ∧ lon ≤ max p1.2 p2.2 ∧ lat ≤ max p1.1 p2.1 then
    (if p1.1 = p2.1 ∨ lat ≤ (lon - p1.2) * (p2.1 - p1.1) / (p2.2 - p1.2) + p1.1
     then !inside else inside)
  else inside

/-- Ray-casting point-in-polygon test of `geofencing.point_in_polygon`.
The source walks the edges `(polygon[i-1], polygon[i % n])` for `i = 1..n`;
on an empty polygon the source would raise IndexError (no configured zone is
empty), modelled as `false`. -/
def point_in_polygon (point : α × α) (polygon : List (α × α)) : Bool :=
  (polygon.zip (polygon.rotate 1)).foldl
    (fun inside e => pipEdge point.1 point.2 e.1 e.2 inside) false

def is_in_no_fly_zone (position : Position α) : Bool :=
  (NO_FLY_ZONES (α := α)).any
    (fun zone => point_in_polygon (position.latitude, position.longitude) zone.polygon)

/-- Cost multiplier of a position: `none` models the source's `float('inf')`
for no-fly zones; otherwise the max of the containing sensitive areas'
multipliers and `1`. -/
def get_position_cost_multiplier (position : Position α) : Option α :=
  if (NO_FLY_ZONES (α := α)).any
      (fun z => point_in_polygon (position.latitude, position.longitude) z.polygon) then
    none
  else
    some ((SENSITIVE_AREAS (α := α)).foldl
      (fun m z =>
        if point_in_polygon (position.latitude, position.longitude) z.polygon then
          max m (z.cost_multiplier.getD 1)
        else m) 1)

def is_within_operational_area (position : Position α) : Bool :=
  if position.latitude < (OPERATIONAL_AREA (α := α)).min_lat ∨
     position.latitude > (OPERATIONAL_AREA (α := α)).max_lat then false
  else if position.longitude < (OPERATIONAL_AREA (α := α)).min_lon ∨
     position.longitude > (OPERATIONAL_AREA (α := α)).max_lon then false
  else true

/-- Python float modulus `x % m` for `m > 0`. -/
def pymod (x m : α) : α := x - m * ⌊x / m⌋

/-- Python `min(xs, key=...)` keeps the first minimiser; empty input (which
would raise in Python) yields `0`, unreachable from the configured maps. -/
def minByDist (c : α) : List α → α
  | [] => 0
  | x :: xs => xs.foldl (fun best y => if |y - c| < |best - c| then y else best) x

def get_safe_altitude_for_direction (heading current_altitude : α) : α :=
  let h := pymod heading 360
  let direction :=
    if 315 ≤ h ∨ h < 45 then "NORTH"
    else if 45 ≤ h ∧ h < 135 then "EAST"
    else if 135 ≤ h ∧ h < 225 then "SOUTH"
    else "WEST"
  let available := ((DIRECTION_ALTITUDE_MAP (α := α)).lookup direction).getD ALTITUDE_LAYERS
  minByDist current_altitude available

/-! ## pathfinding.py -/

/-- The transcendental geodesy primitives used by the source
(`haversine_distance`, `math.sqrt`, `math.cos(math.radians(.))` and
`calculate_heading` including its final normalisation to `[0, 360)`).
Structural theorems are proved for every instantiation; `realPrims` below
instantiates them over `ℝ` with the verbatim source formulas. -/
structure GeoPrims (α : Type) where
  hav : α → α → α → α → α
  sqrtP : α → α
  cosdeg : α → α
  headP : α → α → α → α → α

/-- 3D Euclidean distance of `pathfinding.distance_3d`, over the primitive
haversine and square root. -/
def distance_3d (prims : GeoPrims α) (lat1 lon1 alt1 lat2 lon2 alt2 : α) : α :=
  prims.sqrtP ((prims.hav lat1 lon1 lat2 lon2) ^ 2 + |alt2 - alt1| ^ 2)

/-- A* search node of `pathfinding.Node4D` with its parent link and the
mutable cost fields `g`, `h`, `f`. -/
inductive Node4D (α : Type) : Type where
  | mk (lat lon alt time : α) (parent : Option (Node4D α)) (g h f : α)

namespace Node4D

def lat : Node4D α → α | .mk v _ _ _ _ _ _ _ => v
def lon : Node4D α → α | .mk _ v _ _ _ _ _ _ => v
def alt : Node4D α → α | .mk _ _ v _ _ _ _ _ => v
def time : Node4D α → α | .mk _ _ _ v _ _ _ _ => v
def parent : Node4D α → Option (Node4D α) | .mk _ _ _ _ v _ _ _ => v
def g : Node4D α → α | .mk _ _ _ _ _ v _ _ => v
def h : Node4D α → α | .mk _ _ _ _ _ _ v _ => v
def f : Node4D α → α | .mk _ _ _ _ _ _ _ v => v

def to_position (n : Node4D α) : Position α := ⟨n.lat, n.lon, n.alt⟩

/-- Replacement of the cost fields and the parent pointer, as the expansion
loop of `plan_trajectory` performs on each generated neighbour. -/
def withCosts (n : Node4D α) (p : Option (Node4D α)) (g h f : α) : Node4D α :=
  match n with
  | .mk la lo al t _ _ _ _ => .mk la lo al t p g h f

end Node4D

/-- Round-half-to-even of Python `round` on an exact value. -/
def roundHalfEven (q : α) : ℤ :=
  if q - ⌊q⌋ < 1/2 then ⌊q⌋
  else if 1/2 < q - ⌊q⌋ then ⌊q⌋ + 1
  else if (⌊q⌋ : ℤ) % 2 = 0 then ⌊q⌋ else ⌊q⌋ + 1

/-- The identity tuple `(round(lat,4), round(lon,4), round(alt,0))` of
`Node4D.__hash__`, held as scaled integers (`round(x, 4)` equals
`roundHalfEven (x·10⁴) / 10⁴`, so tuple equality is equality here). -/
def hashTuple (n : Node4D α) : ℤ × ℤ × ℤ :=
  (roundHalfEven (n.lat * 10000), roundHalfEven (n.lon * 10000), roundHalfEven n.alt)

/-- Tolerance equality of `Node4D.__eq__`. -/
def nodeEq (a b : Node4D α) : Prop :=
  |a.lat - b.lat| < 0.0001 ∧ |a.lon - b.lon| < 0.0001 ∧ |a.alt - b.alt| < 5

instance (a b : Node4D α) : Decidable (nodeEq a b) := by
  unfold nodeEq; infer_instance

/-- Identity of two nodes for the purposes of the Python closed `set`:
a lookup finds a stored node iff its hash matches and `__eq__` holds. -/
def sameClosedNode (a b : Node4D α) : Prop :=
  hashTuple a = hashTuple b ∧ nodeEq a b

/-- Exact values of IEEE binary floats: integers divided by powers of two.
Every coordinate a Python `Node4D` can actually hold is of this shape. -/
def IsDyadic (x : α) : Prop := ∃ (m : ℤ) (e : ℕ), x = (m : α) / 2 ^ e

/-- Membership of `neighbor in closed_set` under CPython set semantics:
some stored element has the same hash and is `__eq__`-equal. -/
def closedMem (closed : List (Node4D α)) (n : Node4D α) : Bool :=
  closed.any (fun m => decide (hashTuple m = hashTuple n) && decide (nodeEq m n))

/-- Neighbour generation of `pathfinding.get_neighbors`: 8 horizontal
directions crossed with the altitude options, filtered by the operational
area, with parent set to the expanded node. -/
def get_neighbors (prims : GeoPrims α) (node : Node4D α) (goal_lat goal_lon : α) :
    List (Node4D α) :=
  let heading := prims.headP node.lat node.lon goal_lat goal_lon
  let optimal_altitude := get_safe_altitude_for_direction heading node.alt
  let lat_step := GRID_RESOLUTION / 111320
  let lon_step := GRID_RESOLUTION / (111320 * prims.cosdeg node.lat)
  let directions : List (α × α) :=
    [(lat_step, 0), (lat_step, lon_step), (0, lon_step), (-lat_step, lon_step),
     (-lat_step, 0), (-lat_step, -lon_step), (0, -lon_step), (lat_step, -lon_step)]
  let altitude_options :=
    node.alt :: (if 10 < |optimal_altitude - node.alt| then
      [optimal_altitude, (node.alt + optimal_altitude) / 2] else [])
  directions.flatMap (fun d =>
    altitude_options.filterMap (fun alt =>
      let new_lat := node.lat + d.1
      let new_lon := node.lon + d.2
      if is_within_operational_area (Position.mk new_lat new_lon alt) then
        let dist := distance_3d prims node.lat node.lon node.alt new_lat new_lon alt
        let speed : α := if 5 < |alt - node.alt| then DRONE_CRUISE_SPEED * 0.8
                         else DRONE_CRUISE_SPEED
        some (Node4D.mk new_lat new_lon alt (node.time + dist / speed) (some node) 0 0 0)
      else none))

/-- Admissible-estimate heuristic of `pathfinding.heuristic`. -/
def heuristic (prims : GeoPrims α) (node : Node4D α) (goal : Position α) : α :=
  distance_3d prims node.lat node.lon node.alt
    goal.latitude goal.longitude goal.altitude / DRONE_MAX_SPEED

/-- Parent chain from a node back to the root (the root last), as walked by
`pathfinding.reconstruct_path` before reversal. -/
def chain : Node4D α → List (Node4D α)
  | .mk la lo al t none g h f => [.mk la lo al t none g h f]
  | .mk la lo al t (some p) g h f => .mk la lo al t (some p) g h f :: chain p

def reconstruct_path (node : Node4D α) : List (Node4D α) := (chain node).reverse

/-- Pop of the open-set heap: the first node of least `f` (`heapq` pops a
least element under `Node4D.__lt__`; tie order inside the heap is
structure-dependent and none of the proved properties depend on it). -/
def popMin : List (Node4D α) → Option (Node4D α × List (Node4D α))
  | [] => none
  | n :: rest =>
    match popMin rest with
    | none => some (n, rest)
    | some (m, rest') => if m.f < n.f then some (m, n :: rest') else some (n, rest)

/-- Waypoint list of `pathfinding.nodes_to_trajectory`: each node becomes a
waypoint, with speed and heading computed toward the next node and the final
node getting speed `0` and heading `0`. -/
def trajWaypoints (prims : GeoPrims α) : List (Node4D α) → List (Waypoint α)
  | [] => []
  | [n] => [⟨n.to_position, n.time, min 0 DRONE_MAX_SPEED, 0⟩]
  | n :: next :: rest =>
    let dist := distance_3d prims n.lat n.lon n.alt next.lat next.lon next.alt
    let time_diff := next.time - n.time
    let speed := if 0 < time_diff then dist / time_diff else DRONE_CRUISE_SPEED
    ⟨n.to_position, n.time, min speed DRONE_MAX_SPEED,
      prims.headP n.lat n.lon next.lat next.lon⟩ :: trajWaypoints prims (next :: rest)

/-- Total distance accumulated over consecutive node pairs. -/
def trajDistance (prims : GeoPrims α) : List (Node4D α) → α
  | n :: next :: rest =>
    distance_3d prims n.lat n.lon n.alt next.lat next.lon next.alt +
      trajDistance prims (next :: rest)
  | _ => 0

/-- Conversion of a node path to a `Trajectory`
(`pathfinding.nodes_to_trajectory`). The battery estimate is the source's
`total_time * DRONE_POWER_CONSUMPTION / DRONE_BATTERY_CAPACITY * 100`,
with no seconds-to-hours conversion. The source indexes `nodes[0]` and
`nodes[-1]` (raising on an empty list, which no caller passes); the empty
case defaults to time `0`. -/
def nodes_to_trajectory (prims : GeoPrims α) (nodes : List (Node4D α)) : Trajectory α :=
  let t0 := (nodes.head?.map Node4D.time).getD 0
  let tN := ((nodes.getLast?).map Node4D.time).getD 0
  { waypoints := trajWaypoints prims nodes
    total_distance := trajDistance prims nodes
    total_time := tN - t0
    estimated_battery_usage :=
      (tN - t0) * DRONE_POWER_CONSUMPTION / DRONE_BATTERY_CAPACITY * 100 }

/-- Body of the neighbour-expansion loop of `plan_trajectory`: one
neighbour is appended to the open list unless it is in the closed set or
carries an infinite cost multiplier; cost fields and parent are set as in
the source loop. -/
def expandStep (prims : GeoPrims α) (goal : Position α) (current : Node4D α)
    (closed' : List (Node4D α)) (acc : List (Node4D α)) (nb : Node4D α) :
    List (Node4D α) :=
  if closedMem closed' nb then acc
  else
    match get_position_cost_multiplier nb.to_position with
    | none => acc
    | some mult =>
      let move_cost := distance_3d prims current.lat current.lon current.alt
          nb.lat nb.lon nb.alt * mult
      let g' := current.g + move_cost
      let h' := heuristic prims nb goal
      acc ++ [nb.withCosts (some current) g' h' (g' + h')]

/-- One A* expansion: `expandStep` folded over the generated neighbours of
`current`, starting from the remaining open list. -/
def expandNode (prims : GeoPrims α) (goal : Position α) (current : Node4D α)
    (closed' : List (Node4D α)) (rest : List (Node4D α)) : List (Node4D α) :=
  (get_neighbors prims current goal.latitude goal.longitude).foldl
    (expandStep prims goal current closed') rest

/-- The A* main loop of `plan_trajectory`: `fuel` is the number of
iterations still allowed (`max_iterations - iterations`); the second
component counts the heap pops performed. -/
def planLoop (prims : GeoPrims α) (goal : Position α) :
    Nat → List (Node4D α) → List (Node4D α) → Option (Trajectory α) × Nat
  | 0, _, _ => (none, 0)
  | fuel + 1, openSet, closedSet =>
    match popMin openSet with
    | none => (none, 0)
    | some (current, rest) =>
      if distance_3d prims current.lat current.lon current.alt
          goal.latitude goal.longitude goal.altitude < GRID_RESOLUTION * 1.5 then
        (some (nodes_to_trajectory prims (reconstruct_path current)), 1)
      else
        let closed' := current :: closedSet
        let out := planLoop prims goal fuel (expandNode prims goal current closed' rest) closed'
        (out.1, out.2 + 1)

/-- The start node of `plan_trajectory`: start coordinates with the
altitude preseeded by the stratification rule, `g = 0` and `f = h`. -/
def startNode (prims : GeoPrims α) (start goal : Position α) (start_time : α) :
    Node4D α :=
  let initial_heading := prims.headP start.latitude start.longitude
      goal.latitude goal.longitude
  let start_altitude := get_safe_altitude_for_direction initial_heading start.altitude
  let base : Node4D α := .mk start.latitude start.longitude start_altitude start_time none 0 0 0
  let h0 := heuristic prims base ⟨goal.latitude, goal.longitude, goal.altitude⟩
  .mk start.latitude start.longitude start_altitude start_time none 0 h0 h0

/-- A geofence-valid node position: outside every no-fly zone and inside
the operational area (the property claimed for planned waypoints). -/
def nodeOK (n : Node4D α) : Prop :=
  is_in_no_fly_zone n.to_position = false ∧
  is_within_operational_area n.to_position = true

/-- Invariant of every node held in the A* open set: its parent chain ends
at the start node `s0`, and every node on the chain other than that root
has a geofence-valid position. -/
def chainOK (s0 : Node4D α) : Node4D α → Prop
  | .mk la lo al t none g h f => Node4D.mk la lo al t none g h f = s0
  | .mk la lo al t (some p) g h f =>
      nodeOK (Node4D.mk la lo al t (some p) g h f) ∧ chainOK s0 p

/-- Instrumented `pathfinding.plan_trajectory`: the planned trajectory (or
`none`) together with the number of heap pops performed. -/
def plan_trajectory_m (prims : GeoPrims α) (start goal : Position α) (start_time : α) :
    Option (Trajectory α) × Nat :=
  planLoop prims goal MAX_ITERATIONS [startNode prims start goal start_time] []

def plan_trajectory (prims : GeoPrims α) (start goal : Position α) (start_time : α) :
    Option (Trajectory α) :=
  (plan_trajectory_m prims start goal start_time).1

/-! ## conflict_detection.py -/

/-- Names bound at module level in `conflict_detection.py` (its imports and
its own definitions).  `Position` is absent: the module imports only
`Trajectory, Waypoint, Position4D, ConflictAlert` from `models`. -/
def conflictDetectionGlobals : List String :=
  ["Trajectory", "Waypoint", "Position4D", "ConflictAlert",
   "config", "pathfinding", "time", "uuid",
   "ConflictDetector", "ConflictResolver"]

/-- Name lookup at a use site inside `conflict_detection.py`: an unbound
name raises `NameError`. -/
def resolveGlobal (name : String) : Except PyErr Unit :=
  if name ∈ conflictDetectionGlobals then .ok () else .error (.nameError name)

/-- ETA of the first waypoint (`trajectory.waypoints[0].eta`; the default on
an empty list stands in for the source's IndexError, see the theorems'
nonemptiness hypotheses). -/
def trajStartEta (t : Trajectory α) : α := ((t.waypoints.head?).map Waypoint.eta).getD 0

/-- ETA of the last waypoint (`trajectory.waypoints[-1].eta`). -/
def trajEndEta (t : Trajectory α) : α := ((t.waypoints.getLast?).map Waypoint.eta).getD 0

/-- Linear interpolation of `ConflictDetector.interpolate_position` over the
waypoint list: the first adjacent pair whose ETAs bracket the query time is
blended; outside every bracket the result is `none`. -/
def interpGo (time : α) : List (Waypoint α) → Option (Position4D α)
  | w1 :: w2 :: rest =>
    if w1.eta ≤ time ∧ time ≤ w2.eta then
      let t_ratio := if w2.eta = w1.eta then 0 else (time - w1.eta) / (w2.eta - w1.eta)
      some ⟨w1.position.latitude + t_ratio * (w2.position.latitude - w1.position.latitude),
            w1.position.longitude + t_ratio * (w2.position.longitude - w1.position.longitude),
            w1.position.altitude + t_ratio * (w2.position.altitude - w1.position.altitude),
            time⟩
    else interpGo time (w2 :: rest)
  | _ => none

def interpolate_position (trajectory : Trajectory α) (time : α) : Option (Position4D α) :=
  interpGo time trajectory.waypoints

/-- Severity ladder of `ConflictDetector.assess_severity`. -/
def assess_severity (horizontal_dist vertical_dist : α) : String :=
  if horizontal_dist < HORIZONTAL_SEPARATION / 2 then "critical"
  else if horizontal_dist < HORIZONTAL_SEPARATION * 0.75 then "warning"
  else "minor"

/-- The body of one tick of the detection loop: both samples, and the
separation test `horizontal < HORIZONTAL_SEPARATION ∧ vertical <
VERTICAL_SEPARATION`; `some` carries the first drone's sample and both
distances. -/
def conflictTick (prims : GeoPrims α) (traj_1 traj_2 : Trajectory α) (time : α) :
    Option (Position4D α × α × α) :=
  match interpolate_position traj_1 time, interpolate_position traj_2 time with
  | some pos_1, some pos_2 =>
    let horizontal_dist := prims.hav pos_1.latitude pos_1.longitude
        pos_2.latitude pos_2.longitude
    let vertical_dist := |pos_1.altitude - pos_2.altitude|
    if horizontal_dist < HORIZONTAL_SEPARATION ∧ vertical_dist < VERTICAL_SEPARATION then
      some (pos_1, horizontal_dist, vertical_dist)
    else none
  | _, _ => none

/-- A violating sampled tick, as the claim states it: both interpolations
defined, horizontal distance below `HORIZONTAL_SEPARATION` and altitude
difference below `VERTICAL_SEPARATION`. -/
def tickViolation (prims : GeoPrims α) (traj_1 traj_2 : Trajectory α) (time : α) : Prop :=
  (conflictTick prims traj_1 traj_2 time).isSome

instance (prims : GeoPrims α) (t1 t2 : Trajectory α) (time : α) :
    Decidable (tickViolation prims t1 t2 time) := by
  unfold tickViolation; infer_instance

/-- The `while current_time <= t_end` sampling loop. The fuel
`⌊(t_end − t_start)/TIME_RESOLUTION⌋ + 1` supplied by the caller covers
every tick that passes the bound test, so exhaustion coincides with the
source loop ending. -/
def scanTicks (prims : GeoPrims α) (traj_1 traj_2 : Trajectory α) (t_end : α) :
    Nat → α → Option (α × Position4D α × α × α)
  | 0, _ => none
  | fuel + 1, current_time =>
    if current_time ≤ t_end then
      match conflictTick prims traj_1 traj_2 current_time with
      | some (p, hd, vd) => some (current_time, p, hd, vd)
      | none => scanTicks prims traj_1 traj_2 t_end fuel (current_time + TIME_RESOLUTION)
    else none

/-- Number of loop iterations that can pass the bound test when starting at
`t_start`: indices `0 .. ⌊(t_end − t_start)/TIME_RESOLUTION⌋`. -/
def tickCount (t_start t_end : α) : Nat := (⌊(t_end - t_start) / TIME_RESOLUTION (α := α)⌋).toNat

/-- The sampling window start `max(traj_1.waypoints[0].eta,
traj_2.waypoints[0].eta)` of `check_trajectory_conflict`. -/
def t_start (traj_1 traj_2 : Trajectory α) : α :=
  max (trajStartEta traj_1) (trajStartEta traj_2)

/-- The sampling window end `min(traj_1.waypoints[-1].eta,
traj_2.waypoints[-1].eta)` of `check_trajectory_conflict`. -/
def t_end (traj_1 traj_2 : Trajectory α) : α :=
  min (trajEndEta traj_1) (trajEndEta traj_2)

/-- `ConflictDetector.check_trajectory_conflict`. The conflict id
(`uuid.uuid4()` in the source) is modelled by a fixed string; no claim
concerns it. -/
def check_trajectory_conflict (prims : GeoPrims α) (drone_1_id : String)
    (traj_1 : Trajectory α) (drone_2_id : String) (traj_2 : Trajectory α) :
    Option (ConflictAlert α) :=
  if t_end traj_1 traj_2 ≤ t_start traj_1 traj_2 then none
  else
    match scanTicks prims traj_1 traj_2 (t_end traj_1 traj_2)
        (tickCount (t_start traj_1 traj_2) (t_end traj_1 traj_2) + 1)
        (t_start traj_1 traj_2) with
    | some (tt, p, hd, vd) =>
      some ⟨"uuid", drone_1_id, drone_2_id, ⟨p.latitude, p.longitude, p.altitude⟩,
            tt, assess_severity hd vd, none⟩
    | none => none

/-- `ConflictResolver.trajectories_conflict`. -/
def trajectories_conflict (prims : GeoPrims α) (traj_1 traj_2 : Trajectory α) : Bool :=
  (check_trajectory_conflict prims "test_1" traj_1 "test_2" traj_2).isSome

/-- Distance between two waypoint positions, as `adjust_speed` computes it. -/
def dist3dPos (prims : GeoPrims α) (p q : Position α) : α :=
  distance_3d prims p.latitude p.longitude p.altitude q.latitude q.longitude q.altitude

/-- One iteration of the waypoint-building loop of
`ConflictResolver.adjust_speed`: before the conflict the speed is reduced
by 30 percent (clamped to `DRONE_MIN_SPEED`) and the ETA recomputed from
the previously appended waypoint `prev` (`i > 0` in the source is exactly
`prev = some _`); at or after the conflict the cruise speed is restored
and the first waypoint is delayed by `TIME_RESOLUTION * 3`. -/
def adjustedWp (prims : GeoPrims α) (conflict_time : α) (prev : Option (Waypoint α))
    (w : Waypoint α) : Waypoint α :=
  if w.eta < conflict_time then
    ⟨w.position,
     (match prev with
      | some pw => pw.eta + dist3dPos prims pw.position w.position /
          (max (w.speed * 0.7) DRONE_MIN_SPEED)
      | none => w.eta),
     max (w.speed * 0.7) DRONE_MIN_SPEED, w.heading⟩
  else
    ⟨w.position,
     (match prev with
      | some pw => pw.eta + dist3dPos prims pw.position w.position / DRONE_CRUISE_SPEED
      | none => w.eta + TIME_RESOLUTION * 3),
     DRONE_CRUISE_SPEED, w.heading⟩

/-- The waypoint-building loop of `ConflictResolver.adjust_speed`. -/
def adjustSpeedGo (prims : GeoPrims α) (conflict_time : α) :
    List (Waypoint α) → Option (Waypoint α) → List (Waypoint α)
  | [], _ => []
  | w :: rest, prev =>
    let nw := adjustedWp prims conflict_time prev w
    nw :: adjustSpeedGo prims conflict_time rest (some nw)

/-- `ConflictResolver.adjust_speed`: rebuilt waypoints plus recomputed
metadata; on an empty waypoint list the source's `new_waypoints[-1]`
raises IndexError. -/
def adjust_speed (prims : GeoPrims α) (trajectory : Trajectory α)
    (conflict : ConflictAlert α) : Except PyErr (Trajectory α) :=
  let new_waypoints := adjustSpeedGo prims conflict.conflict_time trajectory.waypoints none
  match new_waypoints with
  | [] => .error .indexError
  | w0 :: rest =>
    let total_time := ((w0 :: rest).getLast?.map Waypoint.eta).getD 0 - w0.eta
    .ok { waypoints := w0 :: rest
          total_distance := trajectory.total_distance
          total_time := total_time
          estimated_battery_usage :=
            total_time * DRONE_POWER_CONSUMPTION / DRONE_BATTERY_CAPACITY * 100 }

/-- `ConflictResolver.adjust_altitude`: each loop iteration computes the
shifted altitude and then evaluates the name `Position`, which is not
among `conflictDetectionGlobals`, so the first iteration raises
`NameError`; with no waypoints the loop body never runs and the original
totals are kept. -/
def adjust_altitude (trajectory : Trajectory α) (_conflict : ConflictAlert α) :
    Except PyErr (Trajectory α) := do
  let new_waypoints ← trajectory.waypoints.mapM (fun w => do
    let new_altitude := min (w.position.altitude + (VERTICAL_SEPARATION (α := α) + 5))
        DRONE_MAX_ALTITUDE
    let _ ← resolveGlobal "Position"
    pure ({ position := ⟨w.position.latitude, w.position.longitude, new_altitude⟩
            eta := w.eta, speed := w.speed, heading := w.heading } : Waypoint α))
  pure { waypoints := new_waypoints
         total_distance := trajectory.total_distance
         total_time := trajectory.total_time
         estimated_battery_usage := trajectory.estimated_battery_usage }

/-- `ConflictResolver.resolve_conflict`: the escalation ladder
speed adjustment → altitude change → replan. -/
def resolve_conflict (prims : GeoPrims α) (conflict : ConflictAlert α)
    (traj_1 traj_2 : Trajectory α) : Except PyErr (Trajectory α × String) := do
  let modified ← adjust_speed prims traj_1 conflict
  if ¬ trajectories_conflict prims modified traj_2 then
    pure (modified, "speed_adjustment")
  else do
    let modified2 ← adjust_altitude traj_1 conflict
    if ¬ trajectories_conflict prims modified2 traj_2 then
      pure (modified2, "altitude_change")
    else
      pure (traj_1, "replan_required")

/-! ## main.py : orchestrator state and the delivery-request endpoint -/

structure SystemStats where
  total_missions : Nat
  completed_missions : Nat
  conflicts_detected : Nat
  conflicts_resolved : Nat
  active_drones : Nat
deriving DecidableEq

/-- The module-level mutable state of `main.py` (dicts modelled as
association lists in insertion order, matching Python dict iteration). -/
structure SysState (α : Type) where
  active_drones : List (String × Telemetry α)
  active_missions : List (String × Mission α)
  flight_plans : List (String × Trajectory α)
  system_stats : SystemStats
deriving DecidableEq

/-- Replace the value under a key, or append the binding
(`flight_plans[drone] = trajectory`). -/
def setKey {β : Type} (l : List (String × β)) (k : String) (v : β) : List (String × β) :=
  if l.any (fun p => p.1 = k) then
    l.map (fun p => if p.1 = k then (k, v) else p)
  else l ++ [(k, v)]

/-- Status overwrite of `active_drones[id].status = ASSIGNED`. -/
def setDroneStatus (l : List (String × Telemetry α)) (k : String) (st : DroneStatus) :
    List (String × Telemetry α) :=
  l.map (fun p => if p.1 = k then (p.1, { p.2 with status := st }) else p)

/-- The waypoint-wise concatenation of the two planned legs built inside
`create_delivery_request` (waypoints appended, distances and battery
summed, total time from first pickup ETA to last delivery ETA). -/
def combinedTrajectory (trajectory_to_pickup trajectory_to_delivery : Trajectory α) :
    Trajectory α :=
  { waypoints := trajectory_to_pickup.waypoints ++ trajectory_to_delivery.waypoints
    total_distance := trajectory_to_pickup.total_distance +
      trajectory_to_delivery.total_distance
    total_time := trajEndEta trajectory_to_delivery - trajStartEta trajectory_to_pickup
    estimated_battery_usage := trajectory_to_pickup.estimated_battery_usage +
      trajectory_to_delivery.estimated_battery_usage }

/-- `main.detect_mission_conflicts`: every committed plan of another
aircraft is checked against the new trajectory in table order. -/
def detect_mission_conflicts (prims : GeoPrims α)
    (flight_plans : List (String × Trajectory α)) (mission_drone_id : String)
    (mission_traj : Trajectory α) : List (ConflictAlert α) :=
  flight_plans.foldl
    (fun conflicts p =>
      if p.1 ≠ mission_drone_id then
        match check_trajectory_conflict prims mission_drone_id mission_traj p.1 p.2 with
        | some c => conflicts ++ [c]
        | none => conflicts
      else conflicts) []

/-- The per-conflict resolution loop of `create_delivery_request`: each
iteration resolves against `flight_plans[conflict.drone_2_id]`, replaces the
mission trajectory, and increments both counters.  A missing key or a
resolver exception aborts the loop with the mutations made so far (the
counters are module-level state in the source, so they keep their
increments when the handler raises). -/
def resolveMissionConflicts (prims : GeoPrims α)
    (flight_plans : List (String × Trajectory α)) :
    List (ConflictAlert α) → Trajectory α → SystemStats →
    SystemStats × Trajectory α × Except PyErr Unit
  | [], traj, stats => (stats, traj, .ok ())
  | conflict :: rest, traj, stats =>
    match flight_plans.lookup conflict.drone_2_id with
    | none => (stats, traj, .error .keyError)
    | some ref =>
      match resolve_conflict prims conflict traj ref with
      | .error e => (stats, traj, .error e)
      | .ok (resolved, _method) =>
        resolveMissionConflicts prims flight_plans rest resolved
          { stats with
              conflicts_detected := stats.conflicts_detected + 1,
              conflicts_resolved := stats.conflicts_resolved + 1 }

/-- Responses of the `create_delivery_request` endpoint. -/
inductive CDRResponse (α : Type) where
  | queued (mission_id : String)
  | assigned (mission_id drone_id : String) (trajectory : Trajectory α)
      (conflicts_detected : Nat)
deriving DecidableEq

/-- Outcome of one call of the endpoint: final module state, HTTP result
(an `HTTPException` is `(code, detail)`; an uncaught resolver exception
surfaces as a 500), and a ghost count of `plan_trajectory` invocations. -/
instance {ε σ : Type} [DecidableEq ε] [DecidableEq σ] : DecidableEq (Except ε σ) :=
  fun a b =>
    match a, b with
    | .error e1, .error e2 => decidable_of_iff (e1 = e2) (by simp)
    | .ok v1, .ok v2 => decidable_of_iff (v1 = v2) (by simp)
    | .error _, .ok _ => isFalse (by simp)
    | .ok _, .error _ => isFalse (by simp)

structure CDROut (α : Type) where
  state : SysState α
  result : Except (Nat × String) (CDRResponse α)
  plannerCalls : Nat
deriving DecidableEq

/-- First idle drone in table order (`for drone_id, telemetry in
active_drones.items()` with break). -/
def findIdleDrone (l : List (String × Telemetry α)) : Option (String × Telemetry α) :=
  l.find? (fun p => p.2.status = .idle)

/-- `main.create_delivery_request`, over an abstract planner `plan` (the
application passes `plan_trajectory` with the real geodesy primitives;
leaving it a parameter lets the theorems quantify over it and makes
"the planner is never invoked" the statement that the outcome is the same
for every planner).  `now` models `time.time()` and `mission_id` the
generated identifier. -/
def create_delivery_request (prims : GeoPrims α)
    (plan : Position α → Position α → α → Option (Trajectory α))
    (now : α) (mission_id : String) (s : SysState α) (request : DeliveryRequest α) :
    CDROut α :=
  if ¬ is_within_operational_area request.pickup then
    ⟨s, .error (400, "Pickup location outside operational area"), 0⟩
  else if ¬ is_within_operational_area request.delivery then
    ⟨s, .error (400, "Delivery location outside operational area"), 0⟩
  else if is_in_no_fly_zone request.pickup then
    ⟨s, .error (400, "Pickup location is in a no-fly zone"), 0⟩
  else if is_in_no_fly_zone request.delivery then
    ⟨s, .error (400, "Delivery location is in a no-fly zone"), 0⟩
  else
    match findIdleDrone s.active_drones with
    | none =>
      let mission : Mission α :=
        ⟨mission_id, none, request.pickup, request.delivery, now, none, none, .idle, none⟩
      ⟨{ s with
           active_missions := s.active_missions ++ [(mission_id, mission)],
           system_stats := { s.system_stats with
             total_missions := s.system_stats.total_missions + 1 } },
       .ok (.queued mission_id), 0⟩
    | some (available_drone, telemetry) =>
      match plan telemetry.position request.pickup now with
      | none => ⟨s, .error (500, "Could not plan path to pickup location"), 1⟩
      | some trajectory_to_pickup =>
        match plan request.pickup request.delivery
            (trajEndEta trajectory_to_pickup + 30) with
        | none => ⟨s, .error (500, "Could not plan path to delivery location"), 2⟩
        | some trajectory_to_delivery =>
          match resolveMissionConflicts prims s.flight_plans
              (detect_mission_conflicts prims s.flight_plans available_drone
                (combinedTrajectory trajectory_to_pickup trajectory_to_delivery))
              (combinedTrajectory trajectory_to_pickup trajectory_to_delivery)
              s.system_stats with
          | (stats', _, .error _) =>
            ⟨{ s with system_stats := stats' },
             .error (500, "Internal Server Error"), 2⟩
          | (stats', final_traj, .ok _) =>
            let mission : Mission α :=
              ⟨mission_id, some available_drone, request.pickup, request.delivery, now,
               some now, none, .assigned, some final_traj⟩
            ⟨{ active_drones := setDroneStatus s.active_drones available_drone .assigned,
               active_missions := s.active_missions ++ [(mission_id, mission)],
               flight_plans := setKey s.flight_plans available_drone final_traj,
               system_stats := { stats' with
                 total_missions := stats'.total_missions + 1 } },
             .ok (.assigned mission_id available_drone final_traj
               (detect_mission_conflicts prims s.flight_plans available_drone
                 (combinedTrajectory trajectory_to_pickup trajectory_to_delivery)).length), 2⟩

end Defs

/-! ## The real-number instantiation of the geodesy primitives
(verbatim translations of `haversine_distance`, `calculate_heading`,
`math.sqrt`, `math.cos(math.radians(.))` from `pathfinding.py`). -/

noncomputable def radiansR (d : ℝ) : ℝ := d * (Real.pi / 180)

noncomputable def degreesR (r : ℝ) : ℝ := r * (180 / Real.pi)

/-- Python `math.atan2 y x` (note `math.atan2(0, 0) = 0`, matching
`Complex.arg 0 = 0`). -/
noncomputable def atan2R (y x : ℝ) : ℝ := Complex.arg ⟨x, y⟩

/-- `pathfinding.haversine_distance` over `ℝ`. -/
noncomputable def haversineR (lat1 lon1 lat2 lon2 : ℝ) : ℝ :=
  let R : ℝ := 6371000
  let phi1 := radiansR lat1
  let phi2 := radiansR lat2
  let delta_phi := radiansR (lat2 - lat1)
  let delta_lambda := radiansR (lon2 - lon1)
  let a := Real.sin (delta_phi / 2) ^ 2 +
    Real.cos phi1 * Real.cos phi2 * Real.sin (delta_lambda / 2) ^ 2
  let c := 2 * atan2R (Real.sqrt a) (Real.sqrt (1 - a))
  R * c

/-- `pathfinding.calculate_heading` over `ℝ`, including the final
normalisation `(heading + 360) % 360`. -/
noncomputable def headingR (lat1 lon1 lat2 lon2 : ℝ) : ℝ :=
  let lat1_rad := radiansR lat1
  let lat2_rad := radiansR lat2
  let delta_lon := radiansR (lon2 - lon1)
  let x := Real.sin delta_lon * Real.cos lat2_rad
  let y := Real.cos lat1_rad * Real.sin lat2_rad -
    Real.sin lat1_rad * Real.cos lat2_rad * Real.cos delta_lon
  pymod (degreesR (atan2R x y) + 360) 360

/-- The geodesy primitives of the source program, over `ℝ`. -/
noncomputable def realPrims : GeoPrims ℝ :=
  ⟨haversineR, Real.sqrt, fun d => Real.cos (radiansR d), headingR⟩

/-! ## Executable primitives for witness instantiations over `ℚ`
(the structural theorems hold for every `GeoPrims`). -/

def zeroPrims : GeoPrims ℚ := ⟨fun _ _ _ _ => 0, id, id, fun _ _ _ _ => 0⟩

/-! ## Concrete inputs for the counterexamples and witnesses -/

/-- A start position inside the Airport Restricted Airspace polygon. -/
noncomputable def c1Pos : Position ℝ := ⟨37.61, -122.37, 50⟩

/-- The trajectory `plan_trajectory` produces from `c1Pos` to itself at
`t₀ = 0`: the single start node becomes the single waypoint. -/
noncomputable def c1Traj : Trajectory ℝ :=
  ⟨[⟨⟨37.61, -122.37, 50⟩, 0, min 0 DRONE_MAX_SPEED, 0⟩], 0, 0, 0⟩

/-- A stationary waypoint at time `t` for the detector counterexample. -/
noncomputable def stillWp (t : ℝ) : Waypoint ℝ := ⟨⟨37.70, -122.40, 50⟩, t, 10, 0⟩

/-- First trajectory of the C2 counterexample: hovers over
`[0, 10]`; its window touches the second's only at `t = 10`. -/
noncomputable def c2Traj1 : Trajectory ℝ := ⟨[stillWp 0, stillWp 10], 0, 10, 0⟩

/-- Second trajectory of the C2 counterexample: hovers over `[10, 20]`. -/
noncomputable def c2Traj2 : Trajectory ℝ := ⟨[stillWp 10, stillWp 20], 0, 10, 0⟩

/-- A conflict record at time `10` used by the C5 counterexample. -/
noncomputable def c5Conflict : ConflictAlert ℝ :=
  ⟨"cid", "d1", "d2", ⟨37.70, -122.40, 50⟩, 10, "critical", none⟩

/-- Trajectory whose first waypoint ETA equals the conflict time, so the
source shifts it by `TIME_RESOLUTION * 3`. -/
noncomputable def c5Traj : Trajectory ℝ := ⟨[stillWp 10, stillWp 20], 0, 10, 0⟩

/-- The output of `adjust_speed` on `c5Traj` and `c5Conflict`: both ETAs
become `25`; in particular the first waypoint's ETA is shifted by 15 s,
not preserved. -/
noncomputable def c5Adjusted : Trajectory ℝ :=
  ⟨[⟨⟨37.70, -122.40, 50⟩, 25, 10, 0⟩, ⟨⟨37.70, -122.40, 50⟩, 25, 10, 0⟩], 0, 0, 0⟩

/-- Two stationary path nodes one hour apart, the C9 failing input. -/
noncomputable def c9Nodes : List (Node4D ℝ) :=
  [.mk 37.61 (-122.37) 50 0 none 0 0 0, .mk 37.61 (-122.37) 50 3600 none 0 0 0]

/-- A position used by the executable witnesses over `ℚ`. -/
def wPos : Position ℚ := ⟨37.7, -122.4, 50⟩

/-- A two-waypoint hovering trajectory over `[0, 30]`. -/
def wTraj1 : Trajectory ℚ := ⟨[⟨wPos, 0, 10, 0⟩, ⟨wPos, 30, 10, 0⟩], 0, 30, 0⟩

/-- A reference trajectory whose window `[1000, 2000]` is disjoint from the
speed-adjusted trajectory's. -/
def wTraj2 : Trajectory ℚ := ⟨[⟨wPos, 1000, 10, 0⟩, ⟨wPos, 2000, 10, 0⟩], 0, 1000, 0⟩

/-- Same window as `wTraj1` but vertically separated by 50 m. -/
def wTrajHi : Trajectory ℚ :=
  ⟨[⟨⟨37.7, -122.4, 100⟩, 0, 10, 0⟩, ⟨⟨37.7, -122.4, 100⟩, 30, 10, 0⟩], 0, 30, 0⟩

/-- A conflict at time `0` for the resolver witnesses. -/
def wConflict : ConflictAlert ℚ := ⟨"c", "a", "b", wPos, 0, "critical", none⟩

/-- The trajectory `adjust_speed` produces from `wTraj1` and `wConflict`:
both ETAs collapse to `15`. -/
def wAdjusted : Trajectory ℚ := ⟨[⟨wPos, 15, 10, 0⟩, ⟨wPos, 15, 10, 0⟩], 0, 0, 0⟩

/-- A delivery request whose pickup lies outside the operational area. -/
def wBadReq : DeliveryRequest ℚ := ⟨⟨0, 0, 50⟩, ⟨0, 0, 50⟩⟩

/-- The empty orchestrator state. -/
def wState0 : SysState ℚ := ⟨[], [], [], ⟨0, 0, 0, 0, 0⟩⟩

/-- A planner stub that flies directly: a single waypoint at the goal at
the requested start time (used only to instantiate the planner-generic
orchestrator theorems on executable inputs). -/
def directPlan : Position ℚ → Position ℚ → ℚ → Option (Trajectory ℚ) :=
  fun _ goal t0 => some ⟨[⟨goal, t0, 10, 0⟩], 0, 0, 0⟩

/-- A node with float-representable coordinates, for the node-identity
witness. -/
def w8a : Node4D ℚ := .mk 37.5 (-122.40625) 50 0 none 0 0 0

/-- Same rounded tuple as `w8a` (altitude rounds to the same metre) at a
different time. -/
def w8b : Node4D ℚ := .mk 37.5 (-122.40625) 50.5 100 none 0 0 0

/-- Modelled from the spec: the battery estimate the specification states
for trajectory synthesis, `total_time · POWER / CAPACITY · 100 / 3600`
(the Wh-to-percent-hour conversion the claim describes; the code under
`src/pathfinding.py` omits the final `/ 3600`). -/
def spec_estimated_battery {α : Type} [LinearOrderedField α] (total_time : α) : α :=
  total_time * DRONE_POWER_CONSUMPTION / DRONE_BATTERY_CAPACITY * 100 / 3600

/-! # Theorems -/

section Theorems

variable {α : Type} [LinearOrderedField α] [FloorRing α]

/-! ## Projection lemmas for the node structure -/

@[simp] theorem Node4D.lat_mk (la lo al t : α) (p g h f) :
    (Node4D.mk la lo al t p g h f).lat = la := rfl

@[simp] theorem Node4D.lon_mk (la lo al t : α) (p g h f) :
    (Node4D.mk la lo al t p g h f).lon = lo := rfl

@[simp] theorem Node4D.alt_mk (la lo al t : α) (p g h f) :
    (Node4D.mk la lo al t p g h f).alt = al := rfl

@[simp] theorem Node4D.time_mk (la lo al t : α) (p g h f) :
    (Node4D.mk la lo al t p g h f).time = t := rfl

@[simp] theorem Node4D.parent_mk (la lo al t : α) (p g h f) :
    (Node4D.mk la lo al t p g h f).parent = p := rfl

@[simp] theorem Node4D.g_mk (la lo al t : α) (p g h f) :
    (Node4D.mk la lo al t p g h f).g = g := rfl

@[simp] theorem Node4D.f_mk (la lo al t : α) (p g h f) :
    (Node4D.mk la lo al t p g h f).f = f := rfl

@[simp] theorem Node4D.to_position_mk (la lo al t : α) (p g h f) :
    (Node4D.mk la lo al t p g h f).to_position = ⟨la, lo, al⟩ := rfl

@[simp] theorem Node4D.withCosts_mk (la lo al t : α) (p g h f p' g' h' f') :
    (Node4D.mk la lo al t p g h f).withCosts p' g' h' f' =
      Node4D.mk la lo al t p' g' h' f' := rfl

/-! ## Evaluation lemmas for the real geodesy primitives at coincident
points (the transcendental formulas all vanish there) -/

theorem haversineR_self (la lo : ℝ) : haversineR la lo la lo = 0 := by
  have harg : ((⟨1, 0⟩ : ℂ)) = (1 : ℂ) := by
    apply Complex.ext <;> simp
  simp [haversineR, radiansR, atan2R, harg, Complex.arg_one]

theorem headingR_self (la lo : ℝ) : headingR la lo la lo = 0 := by
  have hz : Real.cos (la * (Real.pi / 180)) * Real.sin (la * (Real.pi / 180)) -
      Real.sin (la * (Real.pi / 180)) * Real.cos (la * (Real.pi / 180)) = 0 := by ring
  have harg : ((⟨0, 0⟩ : ℂ)) = (0 : ℂ) := by
    apply Complex.ext <;> simp
  have hfl : ((360 : ℝ) / 360) = 1 := by norm_num
  simp [headingR, radiansR, degreesR, atan2R, hz, harg, Complex.arg_zero, pymod, hfl]

theorem distance_3d_realPrims_self (la lo al : ℝ) :
    distance_3d realPrims la lo al la lo al = 0 := by
  simp [distance_3d, realPrims, haversineR_self]

/-! ## Monad laws for Except, stated for rewriting -/

theorem Except.error_bind {ε σ τ : Type} (e : ε) (f : σ → Except ε τ) :
    (Except.error e >>= f) = Except.error e := rfl

theorem Except.ok_bind {ε σ τ : Type} (v : σ) (f : σ → Except ε τ) :
    (Except.ok v >>= f) = f v := rfl

/-! ## C9 : the battery estimate of trajectory synthesis -/

/-- The battery field `nodes_to_trajectory` computes, in closed form: the
code has no seconds-to-hours conversion. -/
theorem nodes_to_trajectory_battery (prims : GeoPrims α) (nodes : List (Node4D α)) :
    (nodes_to_trajectory prims nodes).estimated_battery_usage =
      ((nodes.getLast?.map Node4D.time).getD 0 - (nodes.head?.map Node4D.time).getD 0) *
        DRONE_POWER_CONSUMPTION / DRONE_BATTERY_CAPACITY * 100 := rfl

/-- C9: the claim states `estimated_battery_usage = total_time · POWER /
CAPACITY · 100 / 3600`.  The code computes the formula without the
`/ 3600` factor: on two nodes one hour apart it stores `20000` (percent),
while the spec formula (physically required by the configured units, W and
Wh) gives `50/9 ≈ 5.6` percent.  The code contradicts its own unit
documentation; this is evidence for the code bug. -/
theorem C9_battery_missing_conversion :
    (nodes_to_trajectory realPrims c9Nodes).estimated_battery_usage = 20000 ∧
    spec_estimated_battery ((3600 : ℝ) - 0) = 50 / 9 ∧
    ((20000 : ℝ)) ≠ 50 / 9 := by
  refine ⟨?_, ?_, by norm_num⟩
  · rw [nodes_to_trajectory_battery]
    simp [c9Nodes, DRONE_POWER_CONSUMPTION, DRONE_BATTERY_CAPACITY]
    norm_num
  · simp [spec_estimated_battery, DRONE_POWER_CONSUMPTION, DRONE_BATTERY_CAPACITY]
    norm_num

/-! ## C4 : the altitude-adjustment crash, and C3 : the resolver
postcondition -/

/-- On any trajectory with at least one waypoint the altitude-shift loop
evaluates the unbound name `Position` and raises. -/
theorem adjust_altitude_raises (t : Trajectory α) (c : ConflictAlert α)
    (hne : t.waypoints ≠ []) :
    adjust_altitude t c = .error (.nameError "Position") := by
  obtain ⟨w, ws, hw⟩ := List.exists_cons_of_ne_nil hne
  simp [adjust_altitude, hw, List.mapM, List.mapM.loop, resolveGlobal,
        conflictDetectionGlobals, Except.error_bind]

/-- The speed-adjustment loop never returns an empty list on a cons. -/
theorem adjustSpeedGo_cons_ne_nil (prims : GeoPrims α) (ct : α) (w : Waypoint α)
    (ws : List (Waypoint α)) (prev : Option (Waypoint α)) :
    adjustSpeedGo prims ct (w :: ws) prev ≠ [] := by
  simp [adjustSpeedGo]

/-- `adjust_speed` fails exactly on an empty waypoint list. -/
theorem adjust_speed_empty (prims : GeoPrims α) (t : Trajectory α) (c : ConflictAlert α)
    (h : t.waypoints = []) : adjust_speed prims t c = .error .indexError := by
  simp [adjust_speed, h, adjustSpeedGo]

/-- Whenever `resolve_conflict` returns at all, it returned from the
speed-adjustment branch: the method is `"speed_adjustment"`, the returned
trajectory passed the re-check, and it is the output of `adjust_speed`.
The altitude branch never returns because `adjust_altitude` raises
`NameError` (its input is nonempty, else `adjust_speed` would already have
raised IndexError). -/
theorem resolve_conflict_ok (prims : GeoPrims α) (c : ConflictAlert α)
    (t1 t2 : Trajectory α) (out : Trajectory α × String)
    (h : resolve_conflict prims c t1 t2 = .ok out) :
    out.2 = "speed_adjustment" ∧ trajectories_conflict prims out.1 t2 = false ∧
      adjust_speed prims t1 c = .ok out.1 := by
  rcases hs : adjust_speed prims t1 c with e | modified
  · rw [resolve_conflict, hs, Except.error_bind] at h
    cases h
  · have hne : t1.waypoints ≠ [] := by
      intro hnil
      rw [adjust_speed_empty prims t1 c hnil] at hs
      cases hs
    rw [resolve_conflict, hs, Except.ok_bind] at h
    by_cases hcf : trajectories_conflict prims modified t2
    · rw [if_neg (by simp [hcf]), adjust_altitude_raises t1 c hne, Except.error_bind] at h
      cases h
    · rw [if_pos (by simp [hcf])] at h
      cases h
      refine ⟨rfl, ?_, ?_⟩
      · simpa using hcf
      · simpa using hs

/-- Returning `none` from the detector does not depend on the drone
identifiers (they only label the produced alert). -/
theorem check_conflict_none_id_free (prims : GeoPrims α) (a b a2 b2 : String)
    (t1 t2 : Trajectory α) :
    check_trajectory_conflict prims a t1 b t2 = none ↔
      check_trajectory_conflict prims a2 t1 b2 t2 = none := by
  simp only [check_trajectory_conflict]
  split
  · simp
  · split <;> simp

/-- C4: on every trajectory with at least one waypoint (the specification
requires at least two) `adjust_altitude` raises `NameError` for the
unimported `Position` constructor instead of returning a trajectory, and
consequently `resolve_conflict` never returns with method
`"altitude_change"`. -/
theorem C4_adjust_altitude_unbound_name (t : Trajectory α) (c : ConflictAlert α)
    (hne : t.waypoints ≠ []) :
    adjust_altitude t c = .error (.nameError "Position") ∧
    ∀ (prims : GeoPrims α) (c2 : ConflictAlert α) (t1 t2 : Trajectory α)
      (out : Trajectory α × String),
      resolve_conflict prims c2 t1 t2 = .ok out → out.2 ≠ "altitude_change" := by
  refine ⟨adjust_altitude_raises t c hne, ?_⟩
  intro prims c2 t1 t2 out h
  rw [(resolve_conflict_ok prims c2 t1 t2 out h).1]
  decide

/-- Witness for C4 at a concrete one-waypoint trajectory over `ℚ`. -/
theorem C4_witness :
    (Trajectory.mk (α := ℚ) [⟨⟨37.7, -122.4, 50⟩, 0, 10, 0⟩] 0 0 0).waypoints ≠ [] ∧
    adjust_altitude (Trajectory.mk (α := ℚ) [⟨⟨37.7, -122.4, 50⟩, 0, 10, 0⟩] 0 0 0)
        (ConflictAlert.mk "c" "a" "b" ⟨37.7, -122.4, 50⟩ 0 "minor" none) =
      .error (.nameError "Position") :=
  ⟨by simp,
   (C4_adjust_altitude_unbound_name
     (Trajectory.mk (α := ℚ) [⟨⟨37.7, -122.4, 50⟩, 0, 10, 0⟩] 0 0 0)
     (ConflictAlert.mk "c" "a" "b" ⟨37.7, -122.4, 50⟩ 0 "minor" none)
     (by simp)).1⟩

/-- C3: whenever `resolve_conflict` returns a pair `(traj_out, method)`,
a method other than `"replan_required"` implies the detector reports no
conflict between `traj_out` and the reference trajectory (under any drone
identifiers), and if the method were `"replan_required"` the returned
trajectory is the unmodified input (vacuously: the returned method is
always `"speed_adjustment"`, see `resolve_conflict_ok`). -/
theorem C3_resolve_postcondition (prims : GeoPrims α) (conflict : ConflictAlert α)
    (traj_modify traj_reference : Trajectory α) (out : Trajectory α × String)
    (h : resolve_conflict prims conflict traj_modify traj_reference = .ok out) :
    (out.2 ≠ "replan_required" →
      ∀ id1 id2, check_trajectory_conflict prims id1 out.1 id2 traj_reference = none) ∧
    (out.2 = "replan_required" → out.1 = traj_modify) := by
  obtain ⟨hm, hc, _⟩ := resolve_conflict_ok prims conflict traj_modify traj_reference out h
  constructor
  · intro _ id1 id2
    have : check_trajectory_conflict prims "test_1" out.1 "test_2" traj_reference = none := by
      have := hc
      unfold trajectories_conflict at this
      simpa [Option.isSome_iff_exists] using this
    exact (check_conflict_none_id_free prims "test_1" "test_2" id1 id2 out.1
      traj_reference).mp this
  · intro hrep
    rw [hm] at hrep
    exact absurd hrep (by decide)

/-! ## C2 : characterisation of the sampling detector -/

theorem tick_nonneg (j : Nat) : (0 : α) ≤ (j : α) * TIME_RESOLUTION :=
  mul_nonneg (Nat.cast_nonneg j) (by norm_num [TIME_RESOLUTION])

/-- A sampled tick lies in the window iff its index is at most
`tickCount`. -/
theorem tick_le_iff (ts te : α) (hle : ts ≤ te) (j : Nat) :
    ts + (j : α) * TIME_RESOLUTION ≤ te ↔ j ≤ tickCount ts te := by
  have h5 : (0 : α) < TIME_RESOLUTION := by norm_num [TIME_RESOLUTION]
  have hfl : (0 : ℤ) ≤ ⌊(te - ts) / TIME_RESOLUTION (α := α)⌋ :=
    Int.floor_nonneg.mpr (div_nonneg (by linarith) (le_of_lt h5))
  rw [tickCount, Int.le_toNat hfl, Int.le_floor, le_div_iff₀ h5]
  constructor
  · intro h; push_cast; linarith
  · intro h; push_cast at h; linarith

/-- The sampling loop returns `none` iff every tick inside the window
carries no separation violation. -/
theorem scanTicks_none_iff (prims : GeoPrims α) (t1 t2 : Trajectory α) (te : α) :
    ∀ (f : Nat) (c : α),
      (scanTicks prims t1 t2 te f c = none ↔
        ∀ j : Nat, j < f → c + (j : α) * TIME_RESOLUTION ≤ te →
          conflictTick prims t1 t2 (c + (j : α) * TIME_RESOLUTION) = none)
  | 0, c => by simp [scanTicks]
  | f + 1, c => by
    have cast1 : ∀ m : Nat, c + ((m + 1 : Nat) : α) * TIME_RESOLUTION =
        (c + TIME_RESOLUTION) + (m : α) * TIME_RESOLUTION := by
      intro m; push_cast; ring
    rw [scanTicks]
    by_cases hb : c ≤ te
    · rw [if_pos hb]
      rcases hct : conflictTick prims t1 t2 c with _ | v
      · rw [scanTicks_none_iff prims t1 t2 te f (c + TIME_RESOLUTION)]
        constructor
        · intro hall j hj hle
          cases j with
          | zero => simpa using hct
          | succ m =>
            rw [cast1 m] at hle ⊢
            exact hall m (by omega) hle
        · intro hall j hj hle
          rw [← cast1 j] at hle ⊢
          exact hall (j + 1) (by omega) hle
      · constructor
        · intro h; cases h
        · intro hall
          have h0 := hall 0 (by omega) (by simpa using hb)
          simp only [Nat.cast_zero, zero_mul, add_zero] at h0
          rw [h0] at hct
          cases hct
    · rw [if_neg hb]
      constructor
      · intro _ j hj hle
        exact absurd (le_trans (le_add_of_nonneg_right (tick_nonneg j)) hle) hb
      · intro _; rfl

/-- A `some` answer of the sampling loop is the first violating tick,
carrying that tick's sample and distances. -/
theorem scanTicks_some (prims : GeoPrims α) (t1 t2 : Trajectory α) (te : α) :
    ∀ (f : Nat) (c tt : α) (p : Position4D α) (hd vd : α),
      scanTicks prims t1 t2 te f c = some (tt, p, hd, vd) →
      ∃ j : Nat, j < f ∧ c + (j : α) * TIME_RESOLUTION ≤ te ∧
        conflictTick prims t1 t2 (c + (j : α) * TIME_RESOLUTION) = some (p, hd, vd) ∧
        tt = c + (j : α) * TIME_RESOLUTION ∧
        ∀ i : Nat, i < j → conflictTick prims t1 t2 (c + (i : α) * TIME_RESOLUTION) = none
  | 0, c, tt, p, hd, vd => by intro h; cases h
  | f + 1, c, tt, p, hd, vd => by
    intro h
    have cast1 : ∀ m : Nat, c + ((m + 1 : Nat) : α) * TIME_RESOLUTION =
        (c + TIME_RESOLUTION) + (m : α) * TIME_RESOLUTION := by
      intro m; push_cast; ring
    rw [scanTicks] at h
    by_cases hb : c ≤ te
    · rw [if_pos hb] at h
      rcases hct : conflictTick prims t1 t2 c with _ | v
      · rw [hct] at h
        obtain ⟨j, hj, hle, hsome, htt, hprev⟩ :=
          scanTicks_some prims t1 t2 te f (c + TIME_RESOLUTION) tt p hd vd h
        refine ⟨j + 1, by omega, ?_, ?_, ?_, ?_⟩
        · rw [cast1 j]; exact hle
        · rw [cast1 j]; exact hsome
        · rw [cast1 j]; exact htt
        · intro i hi
          cases i with
          | zero => simpa using hct
          | succ m => rw [cast1 m]; exact hprev m (by omega)
      · rw [hct] at h
        injection h with h
        simp only [Prod.mk.injEq] at h
        obtain ⟨ht, hp, hh, hv⟩ := h
        refine ⟨0, by omega, by simpa using hb, ?_, ?_, ?_⟩
        · simp only [Nat.cast_zero, zero_mul, add_zero]
          rw [hct, ← hp, ← hh, ← hv]
        · simp only [Nat.cast_zero, zero_mul, add_zero]
          exact ht.symm
        · intro i hi; omega
    · rw [if_neg hb] at h
      cases h

/-- A tick with `conflictTick = none` is not a violation. -/
theorem not_viol_of_tick_none {prims : GeoPrims α} {t1 t2 : Trajectory α} {t : α}
    (h : conflictTick prims t1 t2 t = none) : ¬ tickViolation prims t1 t2 t := by
  rw [tickViolation, h]
  simp

/-- Inversion of the tick body: a `some` answer names the two interpolated
samples and the two distances and asserts the separation test. -/
theorem conflictTick_some_iff (prims : GeoPrims α) (t1 t2 : Trajectory α)
    (t : α) (p : Position4D α) (hd vd : α) :
    conflictTick prims t1 t2 t = some (p, hd, vd) ↔
    ∃ p1 p2, interpolate_position t1 t = some p1 ∧ interpolate_position t2 t = some p2 ∧
      p = p1 ∧ hd = prims.hav p1.latitude p1.longitude p2.latitude p2.longitude ∧
      vd = |p1.altitude - p2.altitude| ∧
      hd < HORIZONTAL_SEPARATION ∧ vd < VERTICAL_SEPARATION := by
  rw [conflictTick]
  rcases h1 : interpolate_position t1 t with _ | p1
  · rcases h2 : interpolate_position t2 t with _ | p2 <;> simp [h1, h2]
  · rcases h2 : interpolate_position t2 t with _ | p2
    · simp [h1, h2]
    · simp only [h1, h2, Option.some.injEq]
      by_cases hcond : prims.hav p1.latitude p1.longitude p2.latitude p2.longitude <
          HORIZONTAL_SEPARATION ∧ |p1.altitude - p2.altitude| < VERTICAL_SEPARATION
      · rw [if_pos hcond]
        constructor
        · intro heq
          injection heq with heq
          simp only [Prod.mk.injEq] at heq
          obtain ⟨hp, hhd, hvd⟩ := heq
          refine ⟨p1, p2, rfl, rfl, hp.symm, hhd.symm, hvd.symm, ?_, ?_⟩
          · rw [← hhd]; exact hcond.1
          · rw [← hvd]; exact hcond.2
        · rintro ⟨p1x, p2x, hsp1, hsp2, hp, hhd, hvd, hH, hV⟩
          subst hsp1
          subst hsp2
          rw [hp, hhd, hvd]
      · rw [if_neg hcond]
        constructor
        · intro heq; cases heq
        · rintro ⟨p1x, p2x, hsp1, hsp2, hp, hhd, hvd, hH, hV⟩
          subst hsp1
          subst hsp2
          rw [hhd] at hH
          rw [hvd] at hV
          exact absurd ⟨hH, hV⟩ hcond

/-- C2 (amended): when the sampling windows of the two trajectories overlap
in more than a single instant, `check_trajectory_conflict` returns a
conflict iff some tick `t_start + k·TIME_RESOLUTION` (with `k` up to
`⌊(t_end−t_start)/TIME_RESOLUTION⌋`) violates both separation minima on the
interpolated samples; the conflict is at the first such tick, its position
is the first trajectory's sample there, and its severity follows the
claimed thresholds.  The amendment: when the windows overlap in at most one
instant (`t_start ≥ t_end`) the detector returns `none` even if that single
instant violates separation (see the counterexample theorem). -/
theorem C2_check_conflict_characterization (prims : GeoPrims α) (id1 id2 : String)
    (t1 t2 : Trajectory α) (h1 : t1.waypoints ≠ []) (h2 : t2.waypoints ≠ []) :
    (¬ t_start t1 t2 < t_end t1 t2 → check_trajectory_conflict prims id1 t1 id2 t2 = none) ∧
    (t_start t1 t2 < t_end t1 t2 →
      ((check_trajectory_conflict prims id1 t1 id2 t2 = none ↔
          ¬ ∃ k, k ≤ tickCount (t_start t1 t2) (t_end t1 t2) ∧
            tickViolation prims t1 t2 (t_start t1 t2 + (k : α) * TIME_RESOLUTION)) ∧
       ∀ c, check_trajectory_conflict prims id1 t1 id2 t2 = some c →
         ∃ k, k ≤ tickCount (t_start t1 t2) (t_end t1 t2) ∧
           tickViolation prims t1 t2 (t_start t1 t2 + (k : α) * TIME_RESOLUTION) ∧
           (∀ j, j < k →
             ¬ tickViolation prims t1 t2 (t_start t1 t2 + (j : α) * TIME_RESOLUTION)) ∧
           c.conflict_time = t_start t1 t2 + (k : α) * TIME_RESOLUTION ∧
           c.drone_1_id = id1 ∧ c.drone_2_id = id2 ∧
           ∃ p1 p2,
             interpolate_position t1 (t_start t1 t2 + (k : α) * TIME_RESOLUTION) = some p1 ∧
             interpolate_position t2 (t_start t1 t2 + (k : α) * TIME_RESOLUTION) = some p2 ∧
             c.conflict_position = ⟨p1.latitude, p1.longitude, p1.altitude⟩ ∧
             c.severity =
               (if prims.hav p1.latitude p1.longitude p2.latitude p2.longitude <
                   HORIZONTAL_SEPARATION / 2 then "critical"
                else if prims.hav p1.latitude p1.longitude p2.latitude p2.longitude <
                   HORIZONTAL_SEPARATION * 0.75 then "warning"
                else "minor"))) := by
  constructor
  · intro hlt
    rw [check_trajectory_conflict, if_pos (not_lt.mp hlt)]
  · intro hlt
    have hts : t_start t1 t2 ≤ t_end t1 t2 := le_of_lt hlt
    have hneg : ¬ (t_end t1 t2 ≤ t_start t1 t2) := not_le.mpr hlt
    constructor
    · rcases hscan : scanTicks prims t1 t2 (t_end t1 t2)
          (tickCount (t_start t1 t2) (t_end t1 t2) + 1) (t_start t1 t2) with _ | ⟨tt, p, hd, vd⟩
      · rw [check_trajectory_conflict, if_neg hneg, hscan]
        constructor
        · intro _
          rw [scanTicks_none_iff] at hscan
          rintro ⟨k, hk, hviol⟩
          have hle := (tick_le_iff _ _ hts k).mpr hk
          exact (not_viol_of_tick_none (hscan k (by omega) hle)) hviol
        · intro _; rfl
      · rw [check_trajectory_conflict, if_neg hneg, hscan]
        obtain ⟨j, hjf, hle, hsome, htt, hprev⟩ :=
          scanTicks_some prims t1 t2 (t_end t1 t2) _ _ _ _ _ _ hscan
        constructor
        · intro h; cases h
        · intro hne
          exfalso
          refine hne ⟨j, (tick_le_iff _ _ hts j).mp hle, ?_⟩
          rw [tickViolation, hsome]
          simp
    · intro c hc
      rw [check_trajectory_conflict, if_neg hneg] at hc
      rcases hscan : scanTicks prims t1 t2 (t_end t1 t2)
          (tickCount (t_start t1 t2) (t_end t1 t2) + 1) (t_start t1 t2) with _ | ⟨tt, p, hd, vd⟩
      · rw [hscan] at hc; cases hc
      · rw [hscan] at hc
        injection hc with hc
        obtain ⟨j, hjf, hle, hsome, htt, hprev⟩ :=
          scanTicks_some prims t1 t2 (t_end t1 t2) _ _ _ _ _ _ hscan
        obtain ⟨p1, p2, hi1, hi2, hp, hhd, hvd, hH, hV⟩ :=
          (conflictTick_some_iff prims t1 t2 _ p hd vd).mp hsome
        refine ⟨j, (tick_le_iff _ _ hts j).mp hle, ?_, ?_, ?_, ?_, ?_, p1, p2, hi1, hi2, ?_, ?_⟩
        · rw [tickViolation, hsome]; simp
        · intro i hi; exact not_viol_of_tick_none (hprev i hi)
        · rw [← hc]; exact htt
        · rw [← hc]
        · rw [← hc]
        · rw [← hc]
          simp only [hp]
        · rw [← hc]
          simp only [assess_severity, hhd]

/-- C2 counterexample: the two hovering trajectories touch only at the
instant `10`; that tick lies in the claimed sampling range (`max` of the
starts up to `min` of the ends) and violates both separation minima at
zero distance, yet the detector returns `none` because of its
`t_start >= t_end` early return.  This falsifies the claim's
"if and only if" as stated. -/
theorem C2_counterexample :
    check_trajectory_conflict realPrims "d1" c2Traj1 "d2" c2Traj2 = none ∧
    t_start c2Traj1 c2Traj2 = 10 ∧ t_end c2Traj1 c2Traj2 = 10 ∧
    tickViolation realPrims c2Traj1 c2Traj2 (t_start c2Traj1 c2Traj2) := by
  have hs : t_start c2Traj1 c2Traj2 = 10 := by
    norm_num [t_start, trajStartEta, c2Traj1, c2Traj2, stillWp]
  have he : t_end c2Traj1 c2Traj2 = 10 := by
    norm_num [t_end, trajEndEta, c2Traj1, c2Traj2, stillWp]
  have hi1 : interpolate_position c2Traj1 (10 : ℝ) = some ⟨37.70, -122.40, 50, 10⟩ := by
    norm_num [interpolate_position, c2Traj1, stillWp, interpGo]
  have hi2 : interpolate_position c2Traj2 (10 : ℝ) = some ⟨37.70, -122.40, 50, 10⟩ := by
    norm_num [interpolate_position, c2Traj2, stillWp, interpGo]
  refine ⟨?_, hs, he, ?_⟩
  · rw [check_trajectory_conflict, if_pos (by rw [hs, he])]
  · rw [hs, tickViolation]
    have hct : conflictTick realPrims c2Traj1 c2Traj2 10 =
        some (⟨37.70, -122.40, 50, 10⟩, 0, 0) := by
      rw [conflictTick_some_iff]
      refine ⟨⟨37.70, -122.40, 50, 10⟩, ⟨37.70, -122.40, 50, 10⟩, hi1, hi2, rfl, ?_, ?_, ?_, ?_⟩
      · show (0 : ℝ) = realPrims.hav 37.70 (-122.40) 37.70 (-122.40)
        rw [show realPrims.hav = haversineR from rfl, haversineR_self]
      · norm_num
      · norm_num [HORIZONTAL_SEPARATION]
      · norm_num [VERTICAL_SEPARATION]
    rw [hct]
    simp

/-- C2 witness: the amended characterisation applied to two concrete
vertically separated trajectories over `ℚ`; no sampled tick violates
separation, so the detector returns `none`. -/
theorem C2_witness : check_trajectory_conflict zeroPrims "d1" wTraj1 "d2" wTrajHi = none := by
  have hs : t_start wTraj1 wTrajHi = 0 := by
    norm_num [t_start, trajStartEta, wTraj1, wTrajHi, wPos]
  have he : t_end wTraj1 wTrajHi = 30 := by
    norm_num [t_end, trajEndEta, wTraj1, wTrajHi, wPos]
  have h := (C2_check_conflict_characterization zeroPrims "d1" "d2" wTraj1 wTrajHi
    (by simp [wTraj1]) (by simp [wTrajHi])).2 (by rw [hs, he]; norm_num)
  refine h.1.mpr ?_
  rintro ⟨k, hk, hviol⟩
  have hle : (0 : ℚ) ≤ (k : ℚ) * TIME_RESOLUTION := tick_nonneg k
  have hub : t_start wTraj1 wTrajHi + (k : ℚ) * TIME_RESOLUTION ≤ 30 := by
    rw [← he]
    exact (tick_le_iff _ _ (by rw [hs, he]; norm_num) k).mpr hk
  rw [hs] at hviol hub
  refine not_viol_of_tick_none ?_ hviol
  set t : ℚ := 0 + (k : ℚ) * TIME_RESOLUTION with ht
  have h0t : (0 : ℚ) ≤ t := by rw [ht]; simpa using hle
  have h30t : t ≤ 30 := hub
  have e1 : interpolate_position wTraj1 t = some ⟨37.7, -122.4, 50, t⟩ := by
    simp only [interpolate_position, wTraj1, wPos, interpGo]
    rw [if_pos ⟨h0t, h30t⟩]
    norm_num
  have e2 : interpolate_position wTrajHi t = some ⟨37.7, -122.4, 100, t⟩ := by
    simp only [interpolate_position, wTrajHi, interpGo]
    rw [if_pos ⟨h0t, h30t⟩]
    norm_num
  rcases hct : conflictTick zeroPrims wTraj1 wTrajHi t with _ | ⟨p, hd, vd⟩
  · rfl
  · exfalso
    obtain ⟨p1, p2, hp1, hp2, -, -, hvd, -, hV⟩ :=
      (conflictTick_some_iff zeroPrims wTraj1 wTrajHi t p hd vd).mp hct
    rw [e1] at hp1
    rw [e2] at hp2
    injection hp1 with hp1
    injection hp2 with hp2
    subst hp1
    subst hp2
    rw [hvd] at hV
    norm_num [VERTICAL_SEPARATION] at hV

/-! ## C3 witness : a concrete resolved conflict over ℚ -/

/-- The concrete speed adjustment collapses both ETAs of `wTraj1` to 15. -/
theorem adjust_speed_wTraj1 :
    adjust_speed zeroPrims wTraj1 wConflict = .ok wAdjusted := by
  norm_num [adjust_speed, adjustSpeedGo, adjustedWp, wTraj1, wConflict, wAdjusted, wPos,
    dist3dPos, distance_3d, zeroPrims, TIME_RESOLUTION, DRONE_CRUISE_SPEED,
    DRONE_POWER_CONSUMPTION, DRONE_BATTERY_CAPACITY]

/-- The adjusted trajectory no longer overlaps the reference window. -/
theorem wAdjusted_clear : trajectories_conflict zeroPrims wAdjusted wTraj2 = false := by
  norm_num [trajectories_conflict, check_trajectory_conflict, t_start, t_end,
    trajStartEta, trajEndEta, wAdjusted, wTraj2, wPos]

theorem resolve_wTraj1 :
    resolve_conflict zeroPrims wConflict wTraj1 wTraj2 =
      .ok (wAdjusted, "speed_adjustment") := by
  rw [resolve_conflict, adjust_speed_wTraj1, Except.ok_bind]
  simp only [wAdjusted_clear, Bool.false_eq_true, not_false_eq_true, if_true, ite_true]
  rfl

/-- Witness for C3: the postcondition at the concrete resolved pair. -/
theorem C3_witness :
    resolve_conflict zeroPrims wConflict wTraj1 wTraj2 =
      .ok (wAdjusted, "speed_adjustment") ∧
    (∀ id1 id2, check_trajectory_conflict zeroPrims id1 wAdjusted id2 wTraj2 = none) :=
  ⟨resolve_wTraj1,
   (C3_resolve_postcondition zeroPrims wConflict wTraj1 wTraj2
     (wAdjusted, "speed_adjustment") resolve_wTraj1).1 (by decide)⟩

/-! ## C5 : characterisation of adjust_speed -/

theorem adjustedWp_position (prims : GeoPrims α) (ct : α) (prev : Option (Waypoint α))
    (w : Waypoint α) : (adjustedWp prims ct prev w).position = w.position := by
  by_cases hw : w.eta < ct <;> simp [adjustedWp, hw]

theorem adjustedWp_heading (prims : GeoPrims α) (ct : α) (prev : Option (Waypoint α))
    (w : Waypoint α) : (adjustedWp prims ct prev w).heading = w.heading := by
  by_cases hw : w.eta < ct <;> simp [adjustedWp, hw]

theorem adjustedWp_speed (prims : GeoPrims α) (ct : α) (prev : Option (Waypoint α))
    (w : Waypoint α) : (adjustedWp prims ct prev w).speed =
      (if w.eta < ct then max (w.speed * 0.7) DRONE_MIN_SPEED else DRONE_CRUISE_SPEED) := by
  by_cases hw : w.eta < ct <;> simp [adjustedWp, hw]

theorem adjustedWp_eta_none (prims : GeoPrims α) (ct : α) (w : Waypoint α) :
    (adjustedWp prims ct none w).eta =
      (if w.eta < ct then w.eta else w.eta + TIME_RESOLUTION * 3) := by
  by_cases hw : w.eta < ct <;> simp [adjustedWp, hw]

theorem adjustedWp_eta_some (prims : GeoPrims α) (ct : α) (pw w : Waypoint α) :
    (adjustedWp prims ct (some pw) w).eta =
      pw.eta + dist3dPos prims pw.position w.position / (adjustedWp prims ct (some pw) w).speed := by
  by_cases hw : w.eta < ct <;> simp [adjustedWp, hw]

/-- The waypoint pointwise contract of the speed-adjustment loop:
positions and headings are preserved and speeds follow the claimed
pre/post-conflict rule. -/
theorem adjustSpeedGo_forall2 (prims : GeoPrims α) (ct : α) :
    ∀ (ws : List (Waypoint α)) (prev : Option (Waypoint α)),
      List.Forall₂ (fun w w' : Waypoint α =>
        w'.position = w.position ∧ w'.heading = w.heading ∧
        w'.speed = (if w.eta < ct then max (w.speed * 0.7) DRONE_MIN_SPEED
                    else DRONE_CRUISE_SPEED)) ws (adjustSpeedGo prims ct ws prev)
  | [], _ => List.Forall₂.nil
  | w :: rest, prev =>
    List.Forall₂.cons
      ⟨adjustedWp_position prims ct prev w, adjustedWp_heading prims ct prev w,
       adjustedWp_speed prims ct prev w⟩
      (adjustSpeedGo_forall2 prims ct rest _)

/-- The ETA recurrence of the speed-adjustment loop: each rebuilt waypoint
after the first has the previous rebuilt ETA plus the distance between the
consecutive original positions divided by its new speed. -/
theorem adjustSpeedGo_chain (prims : GeoPrims α) (ct : α) :
    ∀ (ws : List (Waypoint α)) (prev : Option (Waypoint α)),
      List.Chain' (fun a b : Waypoint α × Waypoint α =>
        b.1.eta = a.1.eta + dist3dPos prims a.2.position b.2.position / b.1.speed)
        ((adjustSpeedGo prims ct ws prev).zip ws)
  | [], _ => by simp [adjustSpeedGo]
  | [w], prev => by simp [adjustSpeedGo]
  | w :: r :: rest, prev => by
    have hrel : (adjustedWp prims ct (some (adjustedWp prims ct prev w)) r).eta =
        (adjustedWp prims ct prev w).eta +
          dist3dPos prims w.position r.position /
            (adjustedWp prims ct (some (adjustedWp prims ct prev w)) r).speed := by
      rw [adjustedWp_eta_some, adjustedWp_position]
    have htail := adjustSpeedGo_chain prims ct (r :: rest) (some (adjustedWp prims ct prev w))
    simp only [adjustSpeedGo, List.zip_cons_cons] at htail ⊢
    exact List.Chain'.cons hrel htail

/-- C5 (amended): `adjust_speed` rebuilds the waypoint list preserving
positions and headings; every waypoint whose original ETA precedes the
conflict time gets speed `max(speed·0.7, DRONE_MIN_SPEED)` and waypoints at
or after the conflict time get `DRONE_CRUISE_SPEED`; ETAs are recomputed
forward as `previous.eta + distance/new_speed`.  The amendment concerns the
first waypoint: its ETA is preserved only when it precedes the conflict
time; otherwise the source shifts it by `TIME_RESOLUTION * 3` (the claim
said it is always preserved; see the counterexample theorem). -/
theorem C5_adjust_speed_characterization (prims : GeoPrims α) (trajectory : Trajectory α)
    (conflict : ConflictAlert α) (hne : trajectory.waypoints ≠ []) :
    ∃ t', adjust_speed prims trajectory conflict = .ok t' ∧
      List.Forall₂ (fun w w' : Waypoint α =>
        w'.position = w.position ∧ w'.heading = w.heading ∧
        w'.speed = (if w.eta < conflict.conflict_time then
            max (w.speed * 0.7) DRONE_MIN_SPEED else DRONE_CRUISE_SPEED))
        trajectory.waypoints t'.waypoints ∧
      (∀ w0 w0', trajectory.waypoints.head? = some w0 → t'.waypoints.head? = some w0' →
        w0'.eta = (if w0.eta < conflict.conflict_time then w0.eta
                   else w0.eta + TIME_RESOLUTION * 3)) ∧
      List.Chain' (fun a b : Waypoint α × Waypoint α =>
        b.1.eta = a.1.eta + dist3dPos prims a.2.position b.2.position / b.1.speed)
        (t'.waypoints.zip trajectory.waypoints) := by
  obtain ⟨w, rest, hw⟩ := List.exists_cons_of_ne_nil hne
  have hgo : adjustSpeedGo prims conflict.conflict_time trajectory.waypoints none =
      adjustedWp prims conflict.conflict_time none w ::
        adjustSpeedGo prims conflict.conflict_time rest
          (some (adjustedWp prims conflict.conflict_time none w)) := by
    rw [hw, adjustSpeedGo]
  rcases hok : adjust_speed prims trajectory conflict with e | t'
  · rw [adjust_speed, hgo] at hok
    cases hok
  · rw [adjust_speed, hgo] at hok
    injection hok with hok
    have hwps : t'.waypoints =
        adjustedWp prims conflict.conflict_time none w ::
          adjustSpeedGo prims conflict.conflict_time rest
            (some (adjustedWp prims conflict.conflict_time none w)) := by
      rw [← hok]
    refine ⟨t', rfl, ?_, ?_, ?_⟩
    · rw [hwps, hw]
      have h := adjustSpeedGo_forall2 prims conflict.conflict_time (w :: rest) none
      rw [adjustSpeedGo] at h
      exact h
    · intro w0 w0' h1 h2
      rw [hw] at h1
      injection h1 with h1
      rw [hwps] at h2
      simp only [List.head?_cons, Option.some.injEq] at h2
      rw [← h2, ← h1, adjustedWp_eta_none]
    · rw [hwps, hw]
      have h := adjustSpeedGo_chain prims conflict.conflict_time (w :: rest) none
      rw [adjustSpeedGo] at h
      exact h

/-- C5 counterexample: on a trajectory whose first waypoint's ETA equals
the conflict time (a detected conflict can lie at the very first sampled
tick) the source does not preserve the first ETA: it becomes original
plus 15 seconds.  This falsifies the claim's clause "the first waypoint's
ETA is preserved unchanged". -/
theorem C5_counterexample :
    adjust_speed realPrims c5Traj c5Conflict = .ok c5Adjusted ∧
    c5Traj.waypoints.head?.map Waypoint.eta = some 10 ∧
    c5Adjusted.waypoints.head?.map Waypoint.eta = some 25 ∧ (25 : ℝ) ≠ 10 := by
  refine ⟨?_, by norm_num [c5Traj, stillWp], by norm_num [c5Adjusted], by norm_num⟩
  norm_num [adjust_speed, adjustSpeedGo, adjustedWp, c5Traj, c5Conflict, c5Adjusted,
    stillWp, dist3dPos, TIME_RESOLUTION, DRONE_CRUISE_SPEED, DRONE_POWER_CONSUMPTION,
    DRONE_BATTERY_CAPACITY, distance_3d_realPrims_self]

/-- Witness for C5 at a concrete trajectory over `ℚ`. -/
theorem C5_witness :
    ∃ t', adjust_speed zeroPrims wTraj1 wConflict = .ok t' ∧
      t'.waypoints.length = wTraj1.waypoints.length := by
  obtain ⟨t', h1, h2, -, -⟩ :=
    C5_adjust_speed_characterization zeroPrims wTraj1 wConflict (by simp [wTraj1])
  exact ⟨t', h1, (List.Forall₂.length_eq h2).symm⟩

/-! ## C8 : node identity for the closed set -/

/-- Round-half-to-even lies within half a unit of its argument. -/
theorem roundHalfEven_close (q : α) : |q - (roundHalfEven q : α)| ≤ 1 / 2 := by
  have h0 : (0 : α) ≤ q - ⌊q⌋ := sub_nonneg.mpr (Int.floor_le q)
  have h1 : q - ⌊q⌋ < 1 := by have := Int.lt_floor_add_one q; linarith
  rw [roundHalfEven]
  split_ifs with hlt hgt hev
  · rw [abs_le]; constructor <;> linarith
  · rw [abs_le]; push_cast; constructor <;> linarith
  · have hhalf : q - ⌊q⌋ = 1 / 2 := le_antisymm (not_lt.mp hgt) (not_lt.mp hlt)
    rw [abs_le]; constructor <;> linarith
  · have hhalf : q - ⌊q⌋ = 1 / 2 := le_antisymm (not_lt.mp hgt) (not_lt.mp hlt)
    rw [abs_le]; push_cast; constructor <;> linarith

/-- A dyadic rational landing exactly on a decimal half-tick of the
`round(·, 4)` grid forces a factor 5 in the odd numerator `2k + 1`. -/
theorem five_dvd_of_dyadic_half (m : ℤ) (e : Nat) (k : ℤ) (x : α)
    (hxd : x = (m : α) / 2 ^ e) (hx : x * 10000 = (k : α) + 1 / 2) :
    (5 : ℤ) ∣ 2 * k + 1 := by
  have he : ((2 : α) ^ e) ≠ 0 := by positivity
  rw [hxd, div_mul_eq_mul_div, div_eq_iff he] at hx
  have hx' : (m : α) * 20000 = ((2 * k + 1 : ℤ) : α) * (2 : α) ^ e := by
    push_cast
    linear_combination 2 * hx
  have hz : m * 20000 = (2 * k + 1) * 2 ^ e := by exact_mod_cast hx'
  have hp : Prime (5 : ℤ) := by norm_num
  have h5 : (5 : ℤ) ∣ (2 * k + 1) * 2 ^ e := ⟨m * 4000, by rw [← hz]; ring⟩
  rcases hp.dvd_mul.mp h5 with h | h
  · exact h
  · exfalso
    have h2 : (5 : ℤ) ∣ 2 := hp.dvd_of_dvd_pow h
    norm_num at h2

/-- Two dyadic rationals (exact IEEE float values) with the same
`round(·, 4)` bucket differ by strictly less than `10⁻⁴`: the two opposite
half-tick endpoints of a bucket cannot both be dyadic, because `2k−1` and
`2k+1` cannot both be divisible by 5. -/
theorem dyadic_same_round_close (x y : α) (hx : IsDyadic x) (hy : IsDyadic y)
    (h : roundHalfEven (x * 10000) = roundHalfEven (y * 10000)) :
    |x - y| < 0.0001 := by
  obtain ⟨mx, ex, hmx⟩ := hx
  obtain ⟨my, ey, hmy⟩ := hy
  have hxk0 := roundHalfEven_close (x * 10000)
  have hyk := roundHalfEven_close (y * 10000)
  rw [h] at hxk0
  set k := roundHalfEven (y * 10000) with hk
  have key : |x * 10000 - y * 10000| ≤ 1 := by
    have habs : |x * 10000 - y * 10000| ≤
        |x * 10000 - (k : α)| + |y * 10000 - (k : α)| := by
      have := abs_sub_abs_le_abs_sub (x * 10000 - (k : α)) (y * 10000 - (k : α))
      calc |x * 10000 - y * 10000| = |(x * 10000 - (k : α)) - (y * 10000 - (k : α))| := by
            ring_nf
        _ ≤ |x * 10000 - (k : α)| + |y * 10000 - (k : α)| := abs_sub _ _
    linarith
  rcases lt_or_eq_of_le key with hlt | heq
  · have hfac : |x * 10000 - y * 10000| = |x - y| * 10000 := by
      rw [show x * 10000 - y * 10000 = (x - y) * 10000 by ring, abs_mul]
      norm_num
    rw [hfac] at hlt
    rw [show (0.0001 : α) = 1 / 10000 by norm_num]
    linarith
  · exfalso
    rw [abs_le] at hxk0 hyk
    rcases (abs_eq (by norm_num : (0:α) ≤ 1)).mp heq with hpos | hneg
    · have hxhalf : x * 10000 = (k : α) + 1 / 2 := by linarith
      have hyhalf : y * 10000 = ((k - 1 : ℤ) : α) + 1 / 2 := by push_cast; linarith
      have d1 := five_dvd_of_dyadic_half mx ex k x hmx hxhalf
      have d2 := five_dvd_of_dyadic_half my ey (k - 1) y hmy hyhalf
      have h2 : (5 : ℤ) ∣ 2 := by
        have h3 := dvd_sub d1 d2
        rw [show (2 * k + 1) - (2 * (k - 1) + 1) = (2 : ℤ) from by ring] at h3
        exact h3
      norm_num at h2
    · have hyhalf : y * 10000 = (k : α) + 1 / 2 := by linarith
      have hxhalf : x * 10000 = ((k - 1 : ℤ) : α) + 1 / 2 := by push_cast; linarith
      have d1 := five_dvd_of_dyadic_half my ey k y hmy hyhalf
      have d2 := five_dvd_of_dyadic_half mx ex (k - 1) x hmx hxhalf
      have h2 : (5 : ℤ) ∣ 2 := by
        have h3 := dvd_sub d1 d2
        rw [show (2 * k + 1) - (2 * (k - 1) + 1) = (2 : ℤ) from by ring] at h3
        exact h3
      norm_num at h2

/-- C8: for nodes whose coordinates are exact float values (dyadic
rationals), identity for closed-set purposes (same hash bucket and
`__eq__`) holds iff the rounded tuples
`(round(lat,4), round(lon,4), round(alt,0))` match; time plays no part in
`hashTuple` or `nodeEq`, so nodes at different times with the same rounded
position are the same node, and nodes with different rounded tuples are
distinct. -/
theorem C8_node_identity (a b : Node4D α)
    (halat : IsDyadic a.lat) (hblat : IsDyadic b.lat)
    (halon : IsDyadic a.lon) (hblon : IsDyadic b.lon) :
    sameClosedNode a b ↔ hashTuple a = hashTuple b := by
  constructor
  · exact fun h => h.1
  · intro h
    refine ⟨h, ?_⟩
    rw [hashTuple, hashTuple, Prod.mk.injEq, Prod.mk.injEq] at h
    obtain ⟨h1, h2, h3⟩ := h
    refine ⟨dyadic_same_round_close a.lat b.lat halat hblat h1,
            dyadic_same_round_close a.lon b.lon halon hblon h2, ?_⟩
    have ha := roundHalfEven_close a.alt
    have hb := roundHalfEven_close b.alt
    rw [h3] at ha
    rw [abs_le] at ha hb
    rw [abs_lt]
    constructor <;> linarith

/-- Witness for C8: two float-representable nodes at different times in the
same rounded bucket. -/
theorem C8_witness :
    IsDyadic w8a.lat ∧ IsDyadic w8b.lat ∧ IsDyadic w8a.lon ∧ IsDyadic w8b.lon ∧
    w8a.time ≠ w8b.time ∧
    (sameClosedNode w8a w8b ↔ hashTuple w8a = hashTuple w8b) := by
  have d1 : IsDyadic w8a.lat := ⟨75, 1, by norm_num [w8a]⟩
  have d2 : IsDyadic w8b.lat := ⟨75, 1, by norm_num [w8b]⟩
  have d3 : IsDyadic w8a.lon := ⟨-3917, 5, by norm_num [w8a]⟩
  have d4 : IsDyadic w8b.lon := ⟨-3917, 5, by norm_num [w8b]⟩
  exact ⟨d1, d2, d3, d4, by norm_num [w8a, w8b],
         C8_node_identity w8a w8b d1 d2 d3 d4⟩

/-! ## C6 : request validation has no side effects -/

/-- C6: when the pickup or delivery position fails validation (outside the
operational area or inside a no-fly zone), `create_delivery_request`
returns a 400 validation error, leaves the whole state unchanged (no
mission, table or counter is touched), and never invokes the planner: the
outcome is identical for every planner function and the ghost planner-call
count is zero. -/
theorem C6_validation_rejects (prims : GeoPrims α)
    (plan plan2 : Position α → Position α → α → Option (Trajectory α))
    (now : α) (mission_id : String) (s : SysState α) (request : DeliveryRequest α)
    (h : is_within_operational_area request.pickup = false ∨
         is_within_operational_area request.delivery = false ∨
         is_in_no_fly_zone request.pickup = true ∨
         is_in_no_fly_zone request.delivery = true) :
    create_delivery_request prims plan now mission_id s request =
      create_delivery_request prims plan2 now mission_id s request ∧
    (create_delivery_request prims plan now mission_id s request).state = s ∧
    (create_delivery_request prims plan now mission_id s request).plannerCalls = 0 ∧
    ∃ msg, (create_delivery_request prims plan now mission_id s request).result =
      .error (400, msg) := by
  by_cases h1 : is_within_operational_area request.pickup
  · by_cases h2 : is_within_operational_area request.delivery
    · by_cases h3 : is_in_no_fly_zone request.pickup
      · simp [create_delivery_request, h1, h2, h3]
      · by_cases h4 : is_in_no_fly_zone request.delivery
        · simp [create_delivery_request, h1, h2, h3, h4]
        · exfalso
          rcases h with h | h | h | h <;> simp_all
    · simp [create_delivery_request, h1, h2]
  · simp [create_delivery_request, h1]

/-- Witness for C6: a request outside the operational area, two different
planners, the empty state. -/
theorem C6_witness :
    (is_within_operational_area wBadReq.pickup = false ∨
     is_within_operational_area wBadReq.delivery = false ∨
     is_in_no_fly_zone wBadReq.pickup = true ∨
     is_in_no_fly_zone wBadReq.delivery = true) ∧
    create_delivery_request zeroPrims (fun _ _ _ => none) 0 "m1" wState0 wBadReq =
      create_delivery_request zeroPrims directPlan 0 "m1" wState0 wBadReq ∧
    (create_delivery_request zeroPrims (fun _ _ _ => none) 0 "m1" wState0 wBadReq).state =
      wState0 ∧
    (create_delivery_request zeroPrims (fun _ _ _ => none) 0 "m1" wState0 wBadReq).plannerCalls
      = 0 ∧
    ∃ msg, (create_delivery_request zeroPrims (fun _ _ _ => none) 0 "m1" wState0
      wBadReq).result = .error (400, msg) := by
  have hbad : is_within_operational_area wBadReq.pickup = false := by
    norm_num [is_within_operational_area, wBadReq, OPERATIONAL_AREA]
  exact ⟨Or.inl hbad,
    C6_validation_rejects zeroPrims (fun _ _ _ => none) directPlan 0 "m1" wState0 wBadReq
      (Or.inl hbad)⟩

/-! ## C10 : the conflict counters move in lockstep -/

/-- The deconfliction loop adds the same amount to both counters: one per
conflict processed, regardless of the resolution method; when it completes
without an exception the amount is exactly the number of detected
conflicts. -/
theorem resolveMissionConflicts_counters (prims : GeoPrims α)
    (fps : List (String × Trajectory α)) :
    ∀ (conflicts : List (ConflictAlert α)) (traj : Trajectory α) (stats : SystemStats),
      ∃ kk, kk ≤ conflicts.length ∧
        (resolveMissionConflicts prims fps conflicts traj stats).1.conflicts_detected =
          stats.conflicts_detected + kk ∧
        (resolveMissionConflicts prims fps conflicts traj stats).1.conflicts_resolved =
          stats.conflicts_resolved + kk ∧
        (resolveMissionConflicts prims fps conflicts traj stats).1.total_missions =
          stats.total_missions ∧
        (∀ u, (resolveMissionConflicts prims fps conflicts traj stats).2.2 = .ok u →
          kk = conflicts.length)
  | [], traj, stats =>
    ⟨0, by simp [resolveMissionConflicts]⟩
  | c :: rest, traj, stats => by
    rw [resolveMissionConflicts]
    rcases hlk : fps.lookup c.drone_2_id with _ | ref
    · refine ⟨0, by omega, by simp, by simp, by simp, ?_⟩
      intro u hu
      simp at hu
    · rcases hrc : resolve_conflict prims c traj ref with e | pr
      · refine ⟨0, by omega, by simp [hrc], by simp [hrc], by simp [hrc], ?_⟩
        intro u hu
        simp [hrc] at hu
      · rcases pr with ⟨resolved, method⟩
        obtain ⟨kk, hle, hd, hr, ht, hok⟩ :=
          resolveMissionConflicts_counters prims fps rest resolved
            { stats with
                conflicts_detected := stats.conflicts_detected + 1,
                conflicts_resolved := stats.conflicts_resolved + 1 }
        simp only at hd hr ht
        refine ⟨kk + 1, by simp only [List.length_cons]; omega, ?_, ?_, ?_, ?_⟩
        · simp only [hrc]
          rw [hd]
          omega
        · simp only [hrc]
          rw [hr]
          omega
        · simp only [hrc]
          rw [ht]
        · intro u hu
          simp only [hrc] at hu
          have := hok u hu
          simp only [List.length_cons]
          omega

/-- C10: on every call of `create_delivery_request` the counters
`conflicts_detected` and `conflicts_resolved` increase by one and the same
amount (so the invariant `conflicts_detected = conflicts_resolved` is
preserved by any sequence of requests); on a completed assignment that
amount is exactly the reported number of detected conflicts — every
resolution increments `conflicts_resolved` regardless of the returned
method, so escalations would be counted as resolved. -/
theorem C10_conflict_counters (prims : GeoPrims α)
    (plan : Position α → Position α → α → Option (Trajectory α))
    (now : α) (mission_id : String) (s : SysState α) (request : DeliveryRequest α) :
    ∃ kk,
      (create_delivery_request prims plan now mission_id s
          request).state.system_stats.conflicts_detected
        = s.system_stats.conflicts_detected + kk ∧
      (create_delivery_request prims plan now mission_id s
          request).state.system_stats.conflicts_resolved
        = s.system_stats.conflicts_resolved + kk ∧
      ∀ mid did t n,
        (create_delivery_request prims plan now mission_id s request).result =
          .ok (.assigned mid did t n) → kk = n := by
  rw [create_delivery_request]
  split
  · exact ⟨0, by simp, by simp, fun mid did t n hu => by simp at hu⟩
  split
  · exact ⟨0, by simp, by simp, fun mid did t n hu => by simp at hu⟩
  split
  · exact ⟨0, by simp, by simp, fun mid did t n hu => by simp at hu⟩
  split
  · exact ⟨0, by simp, by simp, fun mid did t n hu => by simp at hu⟩
  split
  · exact ⟨0, by simp, by simp, fun mid did t n hu => by simp at hu⟩
  case _ available_drone telemetry heqidle =>
    split
    · exact ⟨0, by simp, by simp, fun mid did t n hu => by simp at hu⟩
    case _ trajectory_to_pickup heqp =>
      split
      · exact ⟨0, by simp, by simp, fun mid did t n hu => by simp at hu⟩
      case _ trajectory_to_delivery heqd =>
        split
        case _ stats' ftraj e heq =>
          obtain ⟨kk, hle, hd, hr, ht, hok⟩ :=
            resolveMissionConflicts_counters prims s.flight_plans _ _ s.system_stats
          rw [heq] at hd hr
          exact ⟨kk, by simpa using hd, by simpa using hr,
                 fun mid did t n hu => by simp at hu⟩
        case _ stats' ftraj u heq =>
          obtain ⟨kk, hle, hd, hr, ht, hok⟩ :=
            resolveMissionConflicts_counters prims s.flight_plans _ _ s.system_stats
          rw [heq] at hd hr hok
          refine ⟨kk, by simpa using hd, by simpa using hr, ?_⟩
          intro mid did t n hu
          simp only [Except.ok.injEq, CDRResponse.assigned.injEq] at hu
          obtain ⟨-, -, -, hn⟩ := hu
          rw [← hn]
          exact hok u rfl

/-! ## C7 : the planner terminates within the iteration bound -/

/-- Unfolding equation of `planLoop` when the open set is exhausted. -/
theorem planLoop_succ_none (prims : GeoPrims α) (goal : Position α)
    (fuel : Nat) (openSet closedSet : List (Node4D α))
    (h : popMin openSet = none) :
    planLoop prims goal (fuel + 1) openSet closedSet = (none, 0) := by
  rw [planLoop, h]

/-- Unfolding equation of `planLoop` when a node is popped. -/
theorem planLoop_succ_some (prims : GeoPrims α) (goal : Position α)
    (fuel : Nat) (openSet closedSet : List (Node4D α))
    (current : Node4D α) (rest : List (Node4D α))
    (h : popMin openSet = some (current, rest)) :
    planLoop prims goal (fuel + 1) openSet closedSet =
      if distance_3d prims current.lat current.lon current.alt
          goal.latitude goal.longitude goal.altitude < GRID_RESOLUTION * 1.5 then
        (some (nodes_to_trajectory prims (reconstruct_path current)), 1)
      else
        ((planLoop prims goal fuel
            (expandNode prims goal current (current :: closedSet) rest)
            (current :: closedSet)).1,
         (planLoop prims goal fuel
            (expandNode prims goal current (current :: closedSet) rest)
            (current :: closedSet)).2 + 1) := by
  rw [planLoop, h]

/-- Each loop entry pops at most once, so the pop count is bounded by the
remaining iteration budget. -/
theorem planLoop_pops_le (prims : GeoPrims α) (goal : Position α) :
    ∀ (fuel : Nat) (openSet closedSet : List (Node4D α)),
      (planLoop prims goal fuel openSet closedSet).2 ≤ fuel
  | 0, _, _ => le_refl 0
  | fuel + 1, openSet, closedSet => by
    rcases hpop : popMin openSet with _ | ⟨current, rest⟩
    · rw [planLoop_succ_none prims goal fuel openSet closedSet hpop]
      exact Nat.zero_le _
    · rw [planLoop_succ_some prims goal fuel openSet closedSet current rest hpop]
      by_cases hgoal : distance_3d prims current.lat current.lon current.alt
          goal.latitude goal.longitude goal.altitude < GRID_RESOLUTION * 1.5
      · rw [if_pos hgoal]
        exact Nat.succ_le_succ (Nat.zero_le fuel)
      · rw [if_neg hgoal]
        exact Nat.succ_le_succ (planLoop_pops_le prims goal fuel _ _)

/-- A successful loop answer comes from a popped node that passed the goal
test, and is the synthesis of that node's reconstructed path. -/
theorem planLoop_some (prims : GeoPrims α) (goal : Position α) :
    ∀ (fuel : Nat) (openSet closedSet : List (Node4D α)) (T : Trajectory α),
      (planLoop prims goal fuel openSet closedSet).1 = some T →
      ∃ n : Node4D α,
        distance_3d prims n.lat n.lon n.alt goal.latitude goal.longitude goal.altitude <
          GRID_RESOLUTION * 1.5 ∧
        T = nodes_to_trajectory prims (reconstruct_path n)
  | 0, _, _, T => by intro h; cases h
  | fuel + 1, openSet, closedSet, T => by
    intro h
    rcases hpop : popMin openSet with _ | ⟨current, rest⟩
    · rw [planLoop_succ_none prims goal fuel openSet closedSet hpop] at h
      cases h
    · rw [planLoop_succ_some prims goal fuel openSet closedSet current rest hpop] at h
      by_cases hgoal : distance_3d prims current.lat current.lon current.alt
          goal.latitude goal.longitude goal.altitude < GRID_RESOLUTION * 1.5
      · rw [if_pos hgoal] at h
        exact ⟨current, hgoal, (Option.some.inj h).symm⟩
      · rw [if_neg hgoal] at h
        exact planLoop_some prims goal fuel _ _ T h

/-- C7: on every input the planner terminates (it is a total function of
an explicit 200000-iteration budget), performs at most
`MAX_ITERATIONS = 200000` heap pops, and returns a trajectory only when a
popped node passed the goal test
`distance_3d(node, goal) < 1.5 * GRID_RESOLUTION`; otherwise — budget
exhausted or open set empty without the goal test succeeding — it returns
`none`. -/
theorem C7_planner_terminates (prims : GeoPrims α) (start goal : Position α)
    (start_time : α) :
    (plan_trajectory_m prims start goal start_time).2 ≤ MAX_ITERATIONS ∧
    (plan_trajectory prims start goal start_time = none ∨
      ∃ n : Node4D α,
        distance_3d prims n.lat n.lon n.alt goal.latitude goal.longitude goal.altitude <
          GRID_RESOLUTION * 1.5 ∧
        plan_trajectory prims start goal start_time =
          some (nodes_to_trajectory prims (reconstruct_path n))) := by
  constructor
  · exact planLoop_pops_le prims goal MAX_ITERATIONS _ _
  · rcases hres : plan_trajectory prims start goal start_time with _ | T
    · exact Or.inl rfl
    · right
      obtain ⟨n, hn, hT⟩ := planLoop_some prims goal MAX_ITERATIONS _ _ T hres
      exact ⟨n, hn, by rw [hT]⟩

/-! ## C1 : geofence validity of planned waypoints -/

/-- A position with a finite cost multiplier is outside every no-fly zone
(`get_position_cost_multiplier` returns `float('inf')`, here `none`, on
no-fly positions). -/
theorem mult_some_no_fly (pos : Position α) (m : α)
    (h : get_position_cost_multiplier pos = some m) :
    is_in_no_fly_zone pos = false := by
  cases hz : is_in_no_fly_zone pos
  · rfl
  · exfalso
    have hcond : (NO_FLY_ZONES (α := α)).any
        (fun z => point_in_polygon (pos.latitude, pos.longitude) z.polygon) = true := hz
    unfold get_position_cost_multiplier at h
    rw [if_pos hcond] at h
    cases h

/-- Every node generated by `get_neighbors` lies within the operational
area (the source `continue`s past any candidate outside it). -/
theorem get_neighbors_op (prims : GeoPrims α) (node : Node4D α) (glat glon : α) :
    ∀ nb ∈ get_neighbors prims node glat glon,
      is_within_operational_area nb.to_position = true := by
  intro nb hnb
  simp only [get_neighbors, List.mem_flatMap, List.mem_filterMap] at hnb
  obtain ⟨d, hd, alt, halt, hsome⟩ := hnb
  by_cases hop : is_within_operational_area
      (Position.mk (node.lat + d.1) (node.lon + d.2) alt) = true
  · rw [if_pos hop] at hsome
    obtain rfl := Option.some.inj hsome
    simpa using hop
  · rw [if_neg hop] at hsome
    cases hsome

/-- A parentless node equal to the root satisfies the chain invariant. -/
theorem chainOK_root (s0 n : Node4D α) (hp : n.parent = none) (he : n = s0) :
    chainOK s0 n := by
  rcases n with ⟨la, lo, al, t, p, g, h, f⟩
  simp only [Node4D.parent_mk] at hp
  subst hp
  exact he

/-- A geofence-valid node whose parent satisfies the chain invariant
satisfies it too. -/
theorem chainOK_cons (s0 n c : Node4D α) (hp : n.parent = some c)
    (hok : nodeOK n) (hc : chainOK s0 c) : chainOK s0 n := by
  rcases n with ⟨la, lo, al, t, p, g, h, f⟩
  simp only [Node4D.parent_mk] at hp
  subst hp
  exact ⟨hok, hc⟩

/-- `withCosts` keeps the position, hence geofence validity. -/
theorem nodeOK_withCosts (n : Node4D α) (p : Option (Node4D α)) (g h f : α)
    (hok : nodeOK n) : nodeOK (n.withCosts p g h f) := by
  rcases n with ⟨la, lo, al, t, p0, g0, h0, f0⟩
  simpa [nodeOK] using hok

/-- The node appended by the expansion loop satisfies the chain invariant:
its position was validated and its parent is the popped node. -/
theorem chainOK_withCosts (s0 current nb : Node4D α) (g h f : α)
    (hok : nodeOK nb) (hcur : chainOK s0 current) :
    chainOK s0 (nb.withCosts (some current) g h f) :=
  chainOK_cons s0 _ current
    (by rcases nb with ⟨la, lo, al, t, p0, g0, h0, f0⟩; rfl)
    (nodeOK_withCosts nb _ _ _ _ hok) hcur

/-- One expansion step preserves the chain invariant of the open list. -/
theorem expandStep_ok (prims : GeoPrims α) (goal : Position α)
    (current s0 : Node4D α) (closed' acc : List (Node4D α)) (nb : Node4D α)
    (hacc : ∀ n ∈ acc, chainOK s0 n)
    (hop : is_within_operational_area nb.to_position = true)
    (hcur : chainOK s0 current) :
    ∀ n ∈ expandStep prims goal current closed' acc nb, chainOK s0 n := by
  intro n hn
  unfold expandStep at hn
  by_cases hcl : closedMem closed' nb = true
  · rw [if_pos hcl] at hn
    exact hacc n hn
  · rw [if_neg hcl] at hn
    rcases hmult : get_position_cost_multiplier nb.to_position with _ | mult
    · rw [hmult] at hn
      exact hacc n hn
    · rw [hmult] at hn
      have hn2 : n ∈ acc ++ [nb.withCosts (some current)
          (current.g + distance_3d prims current.lat current.lon current.alt
            nb.lat nb.lon nb.alt * mult)
          (heuristic prims nb goal)
          (current.g + distance_3d prims current.lat current.lon current.alt
            nb.lat nb.lon nb.alt * mult + heuristic prims nb goal)] := hn
      rw [List.mem_append, List.mem_singleton] at hn2
      rcases hn2 with hn2 | rfl
      · exact hacc n hn2
      · exact chainOK_withCosts s0 current nb _ _ _
          ⟨mult_some_no_fly nb.to_position mult hmult, hop⟩ hcur

/-- The expansion fold preserves the chain invariant, provided every folded
neighbour is within the operational area. -/
theorem foldl_expandStep_ok (prims : GeoPrims α) (goal : Position α)
    (current s0 : Node4D α) (closed' : List (Node4D α))
    (hcur : chainOK s0 current) :
    ∀ (l acc : List (Node4D α)),
      (∀ nb ∈ l, is_within_operational_area nb.to_position = true) →
      (∀ n ∈ acc, chainOK s0 n) →
      ∀ n ∈ l.foldl (expandStep prims goal current closed') acc, chainOK s0 n
  | [], acc, _, hacc => fun n hn => hacc n hn
  | nb :: l, acc, hl, hacc => by
    rw [List.foldl_cons]
    exact foldl_expandStep_ok prims goal current s0 closed' hcur l _
      (fun x hx => hl x (List.mem_cons_of_mem _ hx))
      (expandStep_ok prims goal current s0 closed' acc nb hacc
        (hl nb (List.mem_cons_self _ _)) hcur)

/-- `expandNode` preserves the chain invariant of the open list. -/
theorem expandNode_ok (prims : GeoPrims α) (goal : Position α)
    (current s0 : Node4D α) (closed' rest : List (Node4D α))
    (hcur : chainOK s0 current) (hrest : ∀ n ∈ rest, chainOK s0 n) :
    ∀ n ∈ expandNode prims goal current closed' rest, chainOK s0 n := by
  unfold expandNode
  exact foldl_expandStep_ok prims goal current s0 closed' hcur _ rest
    (get_neighbors_op prims current goal.latitude goal.longitude) hrest

/-- The heap pop returns a member of the list, and keeps only members. -/
theorem popMin_mem : ∀ (l : List (Node4D α)) (c : Node4D α) (rest : List (Node4D α)),
    popMin l = some (c, rest) → c ∈ l ∧ ∀ x ∈ rest, x ∈ l
  | [], c, rest => by intro h; cases h
  | n :: l0, c, rest => by
    intro h
    rw [popMin] at h
    rcases hrec : popMin l0 with _ | ⟨m, rest'⟩
    · rw [hrec] at h
      have h2 : some ((n, l0) : Node4D α × List (Node4D α)) = some (c, rest) := h
      injection h2 with h2
      injection h2 with h3 h4
      subst h3; subst h4
      exact ⟨List.mem_cons_self _ _, fun x hx => List.mem_cons_of_mem _ hx⟩
    · rw [hrec] at h
      have h2 : (if m.f < n.f then some ((m, n :: rest') : Node4D α × List (Node4D α))
          else some (n, l0)) = some (c, rest) := h
      obtain ⟨hm, hsub⟩ := popMin_mem l0 m rest' hrec
      by_cases hlt : m.f < n.f
      · rw [if_pos hlt] at h2
        injection h2 with h2
        injection h2 with h3 h4
        subst h3; subst h4
        refine ⟨List.mem_cons_of_mem _ hm, ?_⟩
        intro x hx
        rcases List.mem_cons.mp hx with rfl | hx
        · exact List.mem_cons_self _ _
        · exact List.mem_cons_of_mem _ (hsub x hx)
      · rw [if_neg hlt] at h2
        injection h2 with h2
        injection h2 with h3 h4
        subst h3; subst h4
        exact ⟨List.mem_cons_self _ _, fun x hx => List.mem_cons_of_mem _ hx⟩

/-- If every open node satisfies the chain invariant, a trajectory returned
by the A* loop is the synthesis of some invariant-satisfying node's path. -/
theorem planLoop_valid (prims : GeoPrims α) (goal : Position α) (s0 : Node4D α) :
    ∀ (fuel : Nat) (openSet closedSet : List (Node4D α)),
      (∀ n ∈ openSet, chainOK s0 n) →
      ∀ T : Trajectory α,
        (planLoop prims goal fuel openSet closedSet).1 = some T →
        ∃ n : Node4D α, chainOK s0 n ∧
          T = nodes_to_trajectory prims (reconstruct_path n)
  | 0, _, _ => by intro _ T h; cases h
  | fuel + 1, openSet, closedSet => by
    intro hinv T h
    rcases hpop : popMin openSet with _ | ⟨current, rest⟩
    · rw [planLoop_succ_none prims goal fuel openSet closedSet hpop] at h
      cases h
    · rw [planLoop_succ_some prims goal fuel openSet closedSet current rest hpop] at h
      obtain ⟨hcur, hrest⟩ := popMin_mem openSet current rest hpop
      by_cases hgoal : distance_3d prims current.lat current.lon current.alt
          goal.latitude goal.longitude goal.altitude < GRID_RESOLUTION * 1.5
      · rw [if_pos hgoal] at h
        exact ⟨current, hinv current hcur, (Option.some.inj h).symm⟩
      · rw [if_neg hgoal] at h
        exact planLoop_valid prims goal s0 fuel _ _
          (expandNode_ok prims goal current s0 (current :: closedSet) rest
            (hinv current hcur) (fun n hn => hinv n (hrest n hn))) T h

/-- The parent chain is never empty: it always starts with the node. -/
theorem chain_cons_shape (p : Node4D α) :
    ∃ (q : Node4D α) (qs : List (Node4D α)), chain p = q :: qs := by
  rcases p with ⟨la, lo, al, t, _ | pp, g, h, f⟩
  · exact ⟨_, _, rfl⟩
  · exact ⟨_, _, rfl⟩

/-- Under the chain invariant, the parent chain ends at the root and every
earlier node on it is geofence-valid. -/
theorem chain_of_chainOK (s0 : Node4D α) :
    ∀ n : Node4D α, chainOK s0 n →
      (chain n).getLast? = some s0 ∧ ∀ m ∈ (chain n).dropLast, nodeOK m
  | .mk la lo al t none g h f => by
    intro hc
    have he : Node4D.mk la lo al t none g h f = s0 := hc
    rw [chain]
    constructor
    · simp [he]
    · simp
  | .mk la lo al t (some p) g h f => by
    intro hc
    have hc2 : nodeOK (Node4D.mk la lo al t (some p) g h f) ∧ chainOK s0 p := hc
    obtain ⟨hok, hcp⟩ := hc2
    obtain ⟨hlast, hdrop⟩ := chain_of_chainOK s0 p hcp
    obtain ⟨q, qs, hq⟩ := chain_cons_shape p
    rw [chain, hq]
    rw [hq] at hlast hdrop
    constructor
    · rw [List.getLast?_cons_cons]
      exact hlast
    · intro m hm
      rw [List.dropLast_cons₂] at hm
      rcases List.mem_cons.mp hm with rfl | hm
      · exact hok
      · exact hdrop m hm

/-- Under the chain invariant, the reconstructed path starts at the root
and all its later nodes are geofence-valid. -/
theorem reconstruct_path_of_chainOK (s0 n : Node4D α) (hc : chainOK s0 n) :
    ∃ rest : List (Node4D α),
      reconstruct_path n = s0 :: rest ∧ ∀ m ∈ rest, nodeOK m := by
  obtain ⟨hlast, hdrop⟩ := chain_of_chainOK s0 n hc
  obtain ⟨q, qs, hq⟩ := chain_cons_shape n
  have hne : chain n ≠ [] := by rw [hq]; exact List.cons_ne_nil q qs
  refine ⟨(chain n).dropLast.reverse, ?_, ?_⟩
  · have hsplit : (chain n).dropLast ++ [(chain n).getLast hne] = chain n :=
      List.dropLast_append_getLast hne
    have hglast : (chain n).getLast hne = s0 := by
      have hx := List.getLast?_eq_getLast_of_ne_nil (l := chain n) hne
      rw [hx] at hlast
      exact Option.some.inj hlast
    unfold reconstruct_path
    conv_lhs => rw [← hsplit]
    rw [List.reverse_append, hglast]
    rfl
  · intro m hm
    exact hdrop m (List.mem_reverse.mp hm)

/-- The waypoint list of `nodes_to_trajectory`, by definition. -/
theorem nodes_to_trajectory_waypoints (prims : GeoPrims α) (nodes : List (Node4D α)) :
    (nodes_to_trajectory prims nodes).waypoints = trajWaypoints prims nodes := rfl

/-- Dropping the first waypoint corresponds to dropping the first node. -/
theorem trajWaypoints_tail (prims : GeoPrims α) (n : Node4D α)
    (rest : List (Node4D α)) :
    (trajWaypoints prims (n :: rest)).tail = trajWaypoints prims rest := by
  cases rest <;> rfl

/-- The first waypoint carries the first node's position. -/
theorem trajWaypoints_head (prims : GeoPrims α) (n : Node4D α)
    (rest : List (Node4D α)) :
    ∃ (wp : Waypoint α) (ws : List (Waypoint α)),
      trajWaypoints prims (n :: rest) = wp :: ws ∧ wp.position = n.to_position := by
  cases rest
  · exact ⟨_, _, rfl, rfl⟩
  · exact ⟨_, _, rfl, rfl⟩

/-- Every waypoint's position is some source node's position. -/
theorem trajWaypoints_mem_position (prims : GeoPrims α) :
    ∀ (nodes : List (Node4D α)) (wp : Waypoint α),
      wp ∈ trajWaypoints prims nodes → ∃ m ∈ nodes, wp.position = m.to_position
  | [], wp => by intro h; simp [trajWaypoints] at h
  | [n], wp => by
    intro h
    rw [trajWaypoints] at h
    rcases List.mem_singleton.mp h with rfl
    exact ⟨n, List.mem_singleton.mpr rfl, rfl⟩
  | n :: next :: rest, wp => by
    intro h
    simp only [trajWaypoints] at h
    rcases List.mem_cons.mp h with rfl | h
    · exact ⟨n, List.mem_cons_self _ _, rfl⟩
    · obtain ⟨m, hm, hp⟩ := trajWaypoints_mem_position prims (next :: rest) wp h
      exact ⟨m, List.mem_cons_of_mem _ hm, hp⟩

/-- The start node's position: start coordinates at the stratified
altitude. -/
theorem startNode_to_position (prims : GeoPrims α) (start goal : Position α)
    (t : α) :
    (startNode prims start goal t).to_position =
      ⟨start.latitude, start.longitude,
        get_safe_altitude_for_direction
          (prims.headP start.latitude start.longitude goal.latitude goal.longitude)
          start.altitude⟩ := rfl

/-- The start node satisfies the chain invariant rooted at itself. -/
theorem chainOK_startNode (prims : GeoPrims α) (start goal : Position α) (t : α) :
    chainOK (startNode prims start goal t) (startNode prims start goal t) :=
  chainOK_root _ _ rfl rfl

/-- C1: if `plan_trajectory` returns a trajectory, every waypoint after
the first is outside all no-fly zones and inside the operational area; the
first waypoint, built from the start node, carries the start's latitude
and longitude (at the stratified altitude) unvalidated — so the
claim's inclusion of the first waypoint holds only when the start position
itself is geofence-valid (refuted at a no-fly start by
`C1_counterexample`). -/
theorem C1_planned_waypoints (prims : GeoPrims α) (start goal : Position α)
    (start_time : α) (T : Trajectory α)
    (hres : plan_trajectory prims start goal start_time = some T) :
    (∀ wp ∈ T.waypoints.tail,
        is_in_no_fly_zone wp.position = false ∧
        is_within_operational_area wp.position = true) ∧
    ∃ (wp : Waypoint α) (ws : List (Waypoint α)),
      T.waypoints = wp :: ws ∧
      wp.position = ⟨start.latitude, start.longitude,
        get_safe_altitude_for_direction
          (prims.headP start.latitude start.longitude goal.latitude goal.longitude)
          start.altitude⟩ := by
  have hSome : (planLoop prims goal MAX_ITERATIONS
      [startNode prims start goal start_time] []).1 = some T := hres
  obtain ⟨n, hchain, hT⟩ :=
    planLoop_valid prims goal (startNode prims start goal start_time)
      MAX_ITERATIONS [startNode prims start goal start_time] []
      (by
        intro m hm
        rcases List.mem_singleton.mp hm with rfl
        exact chainOK_startNode prims start goal start_time)
      T hSome
  obtain ⟨rest, hpath, hok⟩ := reconstruct_path_of_chainOK _ n hchain
  subst hT
  rw [nodes_to_trajectory_waypoints, hpath]
  constructor
  · intro wp hwp
    rw [trajWaypoints_tail] at hwp
    obtain ⟨m, hm, hp⟩ := trajWaypoints_mem_position prims rest wp hwp
    rw [hp]
    exact hok m hm
  · obtain ⟨wp, ws, heq, hwp⟩ :=
      trajWaypoints_head prims (startNode prims start goal start_time) rest
    exact ⟨wp, ws, heq, by rw [hwp, startNode_to_position]⟩

/-! ### Concrete planner run from a start inside the airport no-fly zone -/

/-- A due-north heading selects the closest NORTH-lane altitude; at
heading `0` and altitude `50` that is `50` itself. -/
theorem safe_alt_zero : get_safe_altitude_for_direction (0 : ℝ) 50 = 50 := by
  have hmod : pymod (0 : ℝ) 360 = 0 := by
    unfold pymod
    norm_num
  simp only [get_safe_altitude_for_direction, hmod]
  rw [if_pos (by norm_num : (315 : ℝ) ≤ 0 ∨ (0 : ℝ) < 45)]
  have hlook : (((DIRECTION_ALTITUDE_MAP (α := ℝ)).lookup ("NORTH")).getD
      ALTITUDE_LAYERS) = [50, 90] := rfl
  rw [hlook]
  unfold minByDist
  simp only [List.foldl]
  rw [if_neg]
  rw [show (90 : ℝ) - 50 = 40 by norm_num, show (50 : ℝ) - 50 = 0 by norm_num]
  rw [abs_zero, abs_of_nonneg (by norm_num : (0 : ℝ) ≤ 40)]
  norm_num

/-- The heuristic vanishes when the node already sits at the goal. -/
theorem heuristic_self (n : Node4D ℝ) (p : Position ℝ) (h1 : n.lat = p.latitude)
    (h2 : n.lon = p.longitude) (h3 : n.alt = p.altitude) :
    heuristic realPrims n p = 0 := by
  unfold heuristic
  rw [h1, h2, h3, distance_3d_realPrims_self]
  simp

/-- The start node of the degenerate run `c1Pos → c1Pos` at `t₀ = 0`. -/
theorem c1_startNode :
    startNode realPrims c1Pos c1Pos 0 =
      Node4D.mk 37.61 (-122.37) 50 0 none 0 0 0 := by
  have hhead : realPrims.headP c1Pos.latitude c1Pos.longitude
      c1Pos.latitude c1Pos.longitude = 0 := headingR_self _ _
  have halt : get_safe_altitude_for_direction
      (realPrims.headP c1Pos.latitude c1Pos.longitude c1Pos.latitude c1Pos.longitude)
      c1Pos.altitude = 50 := by
    rw [hhead]
    exact safe_alt_zero
  simp only [startNode]
  rw [halt]
  rw [heuristic_self (Node4D.mk c1Pos.latitude c1Pos.longitude 50 0 none 0 0 0)
    ⟨c1Pos.latitude, c1Pos.longitude, c1Pos.altitude⟩ rfl rfl rfl]
  rfl

/-- The planner, started inside the airport zone with goal equal to start,
immediately passes the goal test and returns the single-waypoint
trajectory `c1Traj` — never validating the start position. -/
theorem c1_run : plan_trajectory realPrims c1Pos c1Pos 0 = some c1Traj := by
  unfold plan_trajectory plan_trajectory_m
  rw [c1_startNode]
  rw [show MAX_ITERATIONS = 199999 + 1 from rfl]
  rw [planLoop_succ_some realPrims c1Pos 199999
    [Node4D.mk 37.61 (-122.37) 50 0 none 0 0 0] []
    (Node4D.mk 37.61 (-122.37) 50 0 none 0 0 0) [] rfl]
  have hlt : distance_3d realPrims
      (Node4D.mk (37.61 : ℝ) (-122.37) 50 0 none 0 0 0).lat
      (Node4D.mk (37.61 : ℝ) (-122.37) 50 0 none 0 0 0).lon
      (Node4D.mk (37.61 : ℝ) (-122.37) 50 0 none 0 0 0).alt
      c1Pos.latitude c1Pos.longitude c1Pos.altitude < GRID_RESOLUTION * 1.5 := by
    have h0 : distance_3d realPrims
        (Node4D.mk (37.61 : ℝ) (-122.37) 50 0 none 0 0 0).lat
        (Node4D.mk (37.61 : ℝ) (-122.37) 50 0 none 0 0 0).lon
        (Node4D.mk (37.61 : ℝ) (-122.37) 50 0 none 0 0 0).alt
        c1Pos.latitude c1Pos.longitude c1Pos.altitude = 0 :=
      distance_3d_realPrims_self 37.61 (-122.37) 50
    rw [h0, show (GRID_RESOLUTION : ℝ) = 100 from rfl]
    norm_num
  rw [if_pos hlt]
  show some (nodes_to_trajectory realPrims
    (reconstruct_path (Node4D.mk (37.61 : ℝ) (-122.37) 50 0 none 0 0 0))) = some c1Traj
  rw [show reconstruct_path (Node4D.mk (37.61 : ℝ) (-122.37) 50 0 none 0 0 0) =
    [Node4D.mk (37.61 : ℝ) (-122.37) 50 0 none 0 0 0] from rfl]
  refine congrArg some ?_
  unfold nodes_to_trajectory c1Traj
  norm_num [trajWaypoints, trajDistance]

/-- The point `(37.61, -122.37)` lies inside the airport polygon (the
ray-casting loop toggles exactly once, on the polygon's first edge). -/
theorem c1_pip : point_in_polygon ((37.61 : ℝ), -122.37)
    [(37.6213, -122.3790), (37.6213, -122.3590),
     (37.6013, -122.3590), (37.6013, -122.3790)] = true := by
  norm_num [point_in_polygon, pipEdge, List.rotate, min_def, max_def]

/-- `c1Pos` violates the airport no-fly zone. -/
theorem c1Pos_no_fly :
    is_in_no_fly_zone (⟨37.61, -122.37, 50⟩ : Position ℝ) = true := by
  unfold is_in_no_fly_zone NO_FLY_ZONES
  rw [List.any_cons]
  rw [show point_in_polygon (((⟨37.61, -122.37, 50⟩ : Position ℝ)).latitude,
      ((⟨37.61, -122.37, 50⟩ : Position ℝ)).longitude)
      [((37.6213 : ℝ), -122.3790), (37.6213, -122.3590),
       (37.6013, -122.3590), (37.6013, -122.3790)] = true from c1_pip]
  rfl

/-- C1 counterexample: planned from the no-fly start `c1Pos` (inside the
Airport Restricted Airspace), the planner succeeds and its trajectory's
waypoint sits in a no-fly zone — the claimed property fails at the first
waypoint. -/
theorem C1_counterexample :
    plan_trajectory realPrims c1Pos c1Pos 0 = some c1Traj ∧
    ∃ wp ∈ c1Traj.waypoints, is_in_no_fly_zone wp.position = true := by
  refine ⟨c1_run, ⟨⟨⟨37.61, -122.37, 50⟩, 0, min 0 DRONE_MAX_SPEED, 0⟩, ?_, ?_⟩⟩
  · unfold c1Traj
    exact List.mem_singleton.mpr rfl
  · exact c1Pos_no_fly

/-- Witness for C1: the planner's success on `c1Pos → c1Pos` discharges
the hypothesis of the claim theorem at a concrete input. -/
theorem C1_witness :
    (∀ wp ∈ c1Traj.waypoints.tail,
        is_in_no_fly_zone wp.position = false ∧
        is_within_operational_area wp.position = true) ∧
    ∃ (wp : Waypoint ℝ) (ws : List (Waypoint ℝ)),
      c1Traj.waypoints = wp :: ws ∧
      wp.position = ⟨c1Pos.latitude, c1Pos.longitude,
        get_safe_altitude_for_direction
          (realPrims.headP c1Pos.latitude c1Pos.longitude
            c1Pos.latitude c1Pos.longitude)
          c1Pos.altitude⟩ :=
  C1_planned_waypoints realPrims c1Pos c1Pos 0 c1Traj c1_run

end Theorems

end UTM
